import Mathlib

/-!
# Verification of the AuthProxy authorization state machine

A shallow embedding of `src/plugins/experimental/authproxy/authproxy.cc`
(Apache Traffic Server AuthProxy plugin).  The plugin drives one
authorization attempt per original request through an explicit state
machine built from static transition tables
(`StateTableInit`, `StateTableProxyRequest`, `StateTableProxyReadHeader`,
`StateTableProxyReadContent`, `StateTableSendResponse`) and the dispatcher
`AuthRequestContext::dispatch`.

Host framework primitives (TS API calls: continuations, DNS lookup,
`TSHttpConnect`, vconn read/write, transaction header access) are external
collaborators per the specification; they are modelled as an environment
record `Env` holding their results, plus an explicit driver that delivers
completion events.  Helper functions from `utils.h` (which is not part of
the source tree) are modelled from the specification and marked as such.
-/

namespace AuthProxy

/-- The subset of `TSEvent` values that the plugin's state tables and
handlers mention. `tsNone` is `TS_EVENT_NONE`, `tsContinue` is
`TS_EVENT_CONTINUE`, `tsError` is `TS_EVENT_ERROR`. -/
inductive TSEvent
  | tsNone
  | tsContinue
  | tsError
  | immediate
  | hostLookup
  | vconnWriteComplete
  | vconnReadReady
  | vconnReadComplete
  | vconnEos
  | httpOsDns
  | httpReadRequestHdr
  | httpSendResponseHdr
  | httpContinue
  deriving DecidableEq, Repr

/-- Names for the `StateHandler` function pointers of authproxy.cc. -/
inductive Handler
  | hContinue        -- StateContinue
  | hResolve         -- StateAuthProxyResolve
  | hConnect         -- StateAuthProxyConnect
  | hWriteComplete   -- StateAuthProxyWriteComplete
  | hReadHeaders     -- StateAuthProxyReadHeaders
  | hCompleteHeaders -- StateAuthProxyCompleteHeaders
  | hReadContent     -- StateAuthProxyReadContent
  | hCompleteContent -- StateAuthProxyCompleteContent
  | hSendResponse    -- StateAuthProxySendResponse
  | hUnauthorized    -- StateUnauthorized
  | hAuthorized      -- StateAuthorized
  deriving DecidableEq, Repr

/-- Names for the five static `StateTransition` tables. -/
inductive Table
  | init
  | proxyRequest
  | readHeader
  | readContent
  | sendResponse
  deriving DecidableEq, Repr

/-- One `StateTransition` row: `{ event, handler, next }`.  The
`TS_EVENT_NONE` sentinel row (null handler) is not listed; a failed
lookup in the row list models reaching the sentinel, where
`TSReleaseAssert(s->handler != NULL)` fires. -/
structure Row where
  event : TSEvent
  handler : Handler
  next : Option Table
  deriving DecidableEq, Repr

/-- `StateTableSendResponse` (authproxy.cc lines 108-112). -/
def stateTableSendResponse : List Row :=
  [⟨.httpSendResponseHdr, .hSendResponse, none⟩]

/-- `StateTableProxyReadContent` (authproxy.cc lines 115-124). -/
def stateTableProxyReadContent : List Row :=
  [⟨.vconnReadReady, .hReadContent, some .readContent⟩,
   ⟨.vconnReadComplete, .hReadContent, some .readContent⟩,
   ⟨.vconnEos, .hCompleteContent, some .readContent⟩,
   ⟨.httpSendResponseHdr, .hContinue, some .sendResponse⟩,
   ⟨.tsError, .hUnauthorized, none⟩,
   ⟨.immediate, .hAuthorized, none⟩]

/-- `StateTableProxyReadHeader` (authproxy.cc lines 127-138). -/
def stateTableProxyReadHeader : List Row :=
  [⟨.vconnReadReady, .hReadHeaders, some .readHeader⟩,
   ⟨.vconnReadComplete, .hReadHeaders, some .readHeader⟩,
   ⟨.httpReadRequestHdr, .hCompleteHeaders, some .readHeader⟩,
   ⟨.httpSendResponseHdr, .hContinue, some .sendResponse⟩,
   ⟨.httpContinue, .hReadContent, some .readContent⟩,
   ⟨.vconnEos, .hUnauthorized, none⟩,
   ⟨.tsError, .hUnauthorized, none⟩,
   ⟨.immediate, .hAuthorized, none⟩]

/-- `StateTableProxyRequest` (authproxy.cc lines 141-147). -/
def stateTableProxyRequest : List Row :=
  [⟨.hostLookup, .hConnect, some .proxyRequest⟩,
   ⟨.vconnWriteComplete, .hWriteComplete, some .readHeader⟩,
   ⟨.tsError, .hUnauthorized, none⟩]

/-- `StateTableInit` (authproxy.cc lines 150-155). -/
def stateTableInit : List Row :=
  [⟨.httpOsDns, .hResolve, some .proxyRequest⟩,
   ⟨.tsError, .hUnauthorized, none⟩]

/-- Mapping from table name to its rows. -/
def tableRows : Table → List Row
  | .init => stateTableInit
  | .proxyRequest => stateTableProxyRequest
  | .readHeader => stateTableProxyReadHeader
  | .readContent => stateTableProxyReadContent
  | .sendResponse => stateTableSendResponse

/-! ## HTTP header model and `utils.h` helpers -/

/-- A MIME header set, as a list of (field name, field value) pairs. -/
def HeaderFields : Type := List (String × String)

instance : DecidableEq HeaderFields := by
  unfold HeaderFields
  infer_instance

/-- Modelled from the spec: `HttpSetMimeHeader` from `utils.h` (not under
src/) forces the named MIME field to the given single value, replacing any
existing occurrences. -/
def HttpSetMimeHeader (hs : List (String × String)) (k v : String) :
    List (String × String) :=
  (hs.filter (fun p => p.1 ≠ k)) ++ [(k, v)]

/-- Field retrieval from a MIME header set (first occurrence). -/
def getMimeHeader (hs : List (String × String)) (k : String) : Option String :=
  (hs.find? (fun p => p.1 = k)).map (fun p => p.2)

/-- Decimal digits of a header value, accumulator form. -/
def parseDecimalAux : List Char → Nat → Option Nat
  | [], acc => some acc
  | c :: cs, acc =>
    if '0' ≤ c ∧ c ≤ '9' then parseDecimalAux cs (acc * 10 + (c.toNat - 48))
    else none

/-- Decimal parse of a header value (none when empty or non-numeric). -/
def parseDecimal (s : String) : Option Nat :=
  match s.toList with
  | [] => none
  | cs => parseDecimalAux cs 0

/-- Modelled from the spec: `HttpGetContentLength` from `utils.h` (not
under src/) queries the parsed header set for `Content-Length`; an absent
or unparsable value is treated as zero. -/
def HttpGetContentLength (hs : List (String × String)) : Nat :=
  match getMimeHeader hs "Content-Length" with
  | some v => (parseDecimal v).getD 0
  | none => 0

/-- Modelled from the spec: `HttpIsChunkedEncoding` from `utils.h` (not
under src/) reports whether the parsed header set declares
`Transfer-Encoding: chunked`. -/
def HttpIsChunkedEncoding (hs : List (String × String)) : Bool :=
  getMimeHeader hs "Transfer-Encoding" = some "chunked"

/-- `TSHttpHdrReasonLookup`: the host's standard reason-phrase table
(external host API; only the statuses that matter here are spelled out). -/
def TSHttpHdrReasonLookup (status : Nat) : String :=
  if status = 200 then "OK"
  else if status = 403 then "Forbidden"
  else if status = 404 then "Not Found"
  else if status = 500 then "Internal Server Error"
  else "Unknown"

/-- An original client HTTP request as the plugin observes it through the
host API: method, destination URL host/port, MIME headers, and the request
body bytes held by the host (which the plugin never reads). -/
structure HttpRequest where
  method : String
  urlHost : String
  urlPort : Nat
  headers : List (String × String)
  body : String
  deriving DecidableEq, Repr

/-- A resolved socket address: family flag, textual address and the raw
16-bit value stored in the `sin_port` / `sin6_port` field. -/
structure SockaddrModel where
  isV6 : Bool
  addrText : String
  port : Nat
  deriving DecidableEq, Repr

/-- The secondary (auth proxy) request that a transform builds and
serializes into the write buffer.  `body` is the bytes the transform
serializes after the header: both transforms call only `TSHttpHdrPrint`,
which prints the header, so both leave it empty. -/
structure SecondaryRequest where
  method : String
  urlHost : String
  urlPort : Nat
  headers : List (String × String)
  body : String
  deriving DecidableEq, Repr

/-- `AuthWriteHeadRequest` (authproxy.cc lines 289-325): copy the whole
client request, rewrite the method to HEAD, force `Content-Length: 0` and
`Cache-Control: no-cache`, and serialize the header (only) to the write
buffer.  It also clears the context's `read_body` flag, which is done by
the caller model below. -/
def AuthWriteHeadRequest (orig : HttpRequest) : SecondaryRequest :=
  let hs := orig.headers
  let hs := HttpSetMimeHeader hs "Content-Length" "0"
  let hs := HttpSetMimeHeader hs "Cache-Control" "no-cache"
  { method := "HEAD"
    urlHost := orig.urlHost
    urlPort := orig.urlPort
    headers := hs
    body := "" }

/-- `AuthWriteRedirectedRequest` (authproxy.cc lines 329-384): copy the
whole client request, rewrite the URL host/port to the resolved auth
proxy address, set an explicit `Host` header for the new destination, and
force `Content-Length: 0` and `Cache-Control: no-cache`; serialize the
header (only) to the write buffer.  The original method is kept. -/
def AuthWriteRedirectedRequest (saddr : SockaddrModel) (orig : HttpRequest) :
    SecondaryRequest :=
  let hostbuf :=
    if saddr.isV6 then "[" ++ saddr.addrText ++ "]:" ++ toString saddr.port
    else saddr.addrText ++ ":" ++ toString saddr.port
  let hs := orig.headers
  let hs := HttpSetMimeHeader hs "Host" hostbuf
  let hs := HttpSetMimeHeader hs "Content-Length" "0"
  let hs := HttpSetMimeHeader hs "Cache-Control" "no-cache"
  { method := orig.method
    urlHost := saddr.addrText
    urlPort := saddr.port
    headers := hs
    body := "" }

/-! ## The attempt context, environment and observable effects -/

/-- Which transaction event `TSHttpTxnReenable` was called with. -/
inductive TxnEvent
  | httpError    -- TS_EVENT_HTTP_ERROR
  | httpContinue -- TS_EVENT_HTTP_CONTINUE
  deriving DecidableEq, Repr

/-- The mutable state of the original client transaction that the plugin
touches through the host API. -/
structure TxnModel where
  /-- `TSHttpTxnSetHttpRetStatus` value, if called. -/
  retStatus : Option Nat := none
  /-- `TSHttpTxnErrorBodySet` value, if called. -/
  errorBody : Option String := none
  /-- Status of the client response header after `TSHttpHdrCopy` from the
  secondary response header, if that copy happened. -/
  respStatus : Option Nat := none
  /-- MIME fields of the client response header after `TSHttpHdrCopy`. -/
  respFields : Option (List (String × String)) := none
  /-- Whether `Content-Length: 0` was forced onto the client response. -/
  respCLZeroForced : Bool := false
  /-- `TS_CONFIG_HTTP_CACHE_IGNORE_AUTHENTICATION` set to 1. -/
  ignoreAuth : Bool := false
  /-- `TS_HTTP_SEND_RESPONSE_HDR_HOOK` added on this transaction. -/
  sendRespHookAdded : Bool := false
  /-- The sequence of `TSHttpTxnReenable` calls made on this transaction. -/
  reenables : List TxnEvent := []
  deriving DecidableEq, Repr

/-- Observable effects of a dispatch, in program order.  `handledEvent e`
is emitted each time the dispatcher matches event `e` against a row and
invokes its handler.  `destroy`, `contDestroyed`, `parserDestroyed` and
`vconnClose` record the `AuthRequestContext::destroy` destruction point
and the resources it releases. -/
inductive Effect
  | handledEvent (e : TSEvent)
  | hostLookupIssued
  | connected (portField : Nat) -- TSHttpConnect succeeded; raw sin_port field value
  | writeIssued
  | readIssued
  | vconnClose
  | hookAddSendResponse
  | reenable (e : TxnEvent)
  | setRetStatus403
  | errorBodySet
  | hdrCopyToClient
  | setRespCLZero
  | configIgnoreAuth
  | outcomeAuthorized -- StateAuthorized ran: the attempt decided Authorized
  | outcomeDenied     -- StateUnauthorized or AuthChainAuthorizationResponse ran
  | destroy
  | contDestroyed
  | parserDestroyed
  deriving DecidableEq, Repr

/-- Which asynchronous completion the host currently owes the attempt.
Used by the driver to deliver only events that correspond to an operation
the attempt actually has in flight. -/
inductive Pending
  | idle
  | lookup   -- TSHostLookup issued, completion pending
  | write    -- TSVConnWrite issued
  | read     -- TSVConnRead issued and vconn still open
  | sendHook -- SEND_RESPONSE_HDR hook added by AuthChainAuthorizationResponse
  deriving DecidableEq, Repr

/-- The environment: results of all external host calls the attempt makes.
These are fixed per attempt (the host's answers), making every handler a
pure function of context and environment. -/
structure Env where
  /-- `options->transform == AuthWriteHeadRequest` (auth-transform head). -/
  transformIsHead : Bool
  /-- `options->force` (force-cacheability). -/
  force : Bool
  /-- `options->hostport` (configured auth port, an `int`). -/
  hostport : Nat
  /-- Whether `HttpGetOriginHost` succeeds on the client request. -/
  originHostOk : Bool
  /-- Whether `TSActionDone` holds on the issued lookup, i.e. the lookup
  completed (and dispatched) inline within `TSHostLookup`. -/
  resolveInline : Bool
  /-- The `TSHostLookupResult` delivered with `TS_EVENT_HOST_LOOKUP`:
  `none` models a failed resolution (null edata). -/
  dnsResult : Option SockaddrModel
  /-- Whether `TSHttpConnect` returns a vconn (`none` return = failure). -/
  connectOk : Bool
  /-- The original client request. -/
  clientReq : HttpRequest
  /-- Parse model for `TSHttpHdrParseResp`: total byte length of the
  secondary response's status line + header section. -/
  headerLen : Nat
  /-- Parse model: the parser reports `TS_PARSE_ERROR` on the response. -/
  malformed : Bool
  /-- `TSHttpHdrStatusGet` on the parsed secondary response header. -/
  rstatus : Nat
  /-- The parsed secondary response MIME fields. -/
  rfields : List (String × String)
  deriving Repr

/-- The `AuthRequestContext` (authproxy.cc lines 157-196) plus the
transaction state it owns borrows, and the driver's pending marker. -/
structure AuthCtx where
  /-- `state`: current `StateTransition` table pointer (`none` = null). -/
  state : Option Table
  /-- `vconn != NULL`. -/
  vconn : Bool := false
  /-- `is_head`: the client request is a HEAD request. -/
  is_head : Bool := false
  /-- `read_body`: consume a response body (constructor default `true`). -/
  read_body : Bool := true
  /-- Unconsumed bytes available in `iobuf.reader`, as a byte list. -/
  iobuf : List Char := []
  /-- Parse model: response header bytes consumed by the parser so far. -/
  hdrConsumed : Nat := 0
  /-- Parse model: the response header has been fully parsed. -/
  headersDone : Bool := false
  /-- The secondary request built by the selected transform. -/
  secondary : Option SecondaryRequest := none
  /-- Driver bookkeeping: the completion the host owes this attempt. -/
  pending : Pending := .idle
  /-- The borrowed original transaction. -/
  txn : TxnModel := {}
  /-- The context has been torn down by `AuthRequestContext::destroy`. -/
  destroyed : Bool := false
  deriving DecidableEq, Repr

/-- Resources released by `~AuthRequestContext` (authproxy.cc lines
177-184): the continuation, the header parser, and the vconn when still
open. -/
def destructorEffects (c : AuthCtx) : List Effect :=
  [.contDestroyed, .parserDestroyed] ++ (if c.vconn then [.vconnClose] else [])

/-- `AuthChainAuthorizationResponse` (authproxy.cc lines 276-286): close
the vconn if open, add the SEND_RESPONSE_HDR hook and reenable the
transaction with `TS_EVENT_HTTP_ERROR`.  This is the point where a
denial-with-response is decided, recorded as `outcomeDenied`. -/
def authChain (c : AuthCtx) : AuthCtx × List Effect :=
  let closeEff : List Effect := if c.vconn then [.vconnClose] else []
  let c := { c with
    vconn := false
    txn := { c.txn with
      sendRespHookAdded := true
      reenables := c.txn.reenables ++ [.httpError] }
    pending := .sendHook }
  (c, closeEff ++ [.hookAddSendResponse, .reenable .httpError, .outcomeDenied])

/-- `AuthRequestIsHead` (authproxy.cc lines 257-273). -/
def AuthRequestIsHead (req : HttpRequest) : Bool :=
  req.method = "HEAD"

/-! ## The state handlers

Each `StateHandler` takes the context and the event data and returns a new
event; `TS_EVENT_CONTINUE` suspends back to the event loop,
`TS_EVENT_NONE` stops because a nested dispatch already ran, anything
else is pumped back into the dispatcher. `StateAuthProxyResolve` is the
one handler that can trigger a nested dispatch; it is inlined into
`dispatch` below. -/

/-- `StateAuthProxyConnect` (authproxy.cc lines 426-476).  A null DNS
result is an error.  Otherwise the resolved address is copied and the
configured port is stored into the 16-bit `sin_port`/`sin6_port` field by
plain integer assignment (`addr.sin.sin_port = options->hostport;`),
i.e. truncation mod 2^16 and no byte-order conversion, identically for
IPv4 and IPv6.  Then `is_head` is derived from the client request,
`TSHttpConnect` is attempted, the configured transform writes the
secondary request, and a vconn write is started. -/
def hdlConnect (env : Env) (c : AuthCtx) (ed : Option SockaddrModel) :
    AuthCtx × List Effect × TSEvent :=
  match ed with
  | none => (c, [], .tsError)
  | some saddr =>
    let storedPort := env.hostport % 65536
    let saddr2 := { saddr with port := storedPort }
    let c := { c with is_head := AuthRequestIsHead env.clientReq }
    if env.connectOk then
      let c := { c with vconn := true }
      let sec :=
        if env.transformIsHead then AuthWriteHeadRequest env.clientReq
        else AuthWriteRedirectedRequest saddr2 env.clientReq
      let c := { c with
        secondary := some sec
        read_body := if env.transformIsHead then false else c.read_body
        pending := .write }
      (c, [.connected storedPort, .writeIssued], .tsContinue)
    else
      (c, [], .tsError)

/-- `StateAuthProxyWriteComplete` (authproxy.cc lines 606-617): reset the
io buffer and start an effectively unbounded read. -/
def hdlWriteComplete (c : AuthCtx) : AuthCtx × List Effect × TSEvent :=
  ({ c with iobuf := [], hdrConsumed := 0, pending := .read },
   [.readIssued], .tsContinue)

/-- `StateAuthProxyReadHeaders` (authproxy.cc lines 557-604): feed the
available bytes to `TSHttpHdrParseResp`.  Parse model: with no bytes
available nothing is parsed; a malformed response yields
`TS_EVENT_ERROR`; once `headerLen` total bytes have been fed the header
is complete, the header bytes are consumed and any remainder is left
buffered, yielding `TS_EVENT_HTTP_READ_REQUEST_HDR`; otherwise all bytes
are consumed and the state keeps reading. -/
def hdlReadHeaders (env : Env) (c : AuthCtx) : AuthCtx × List Effect × TSEvent :=
  if c.iobuf.length = 0 then (c, [], .tsContinue)
  else if env.malformed then (c, [], .tsError)
  else if env.headerLen ≤ c.hdrConsumed + c.iobuf.length then
    ({ c with
        iobuf := c.iobuf.drop (env.headerLen - c.hdrConsumed)
        hdrConsumed := env.headerLen
        headersDone := true },
     [], .httpReadRequestHdr)
  else
    ({ c with iobuf := [], hdrConsumed := c.hdrConsumed + c.iobuf.length },
     [], .tsContinue)

/-- `StateAuthProxyCompleteHeaders` (authproxy.cc lines 478-515): a 2xx
status authorizes immediately; otherwise, if a body should be consumed,
the response is not chunked and the declared content length is positive,
go read the body; otherwise chain the auth proxy response (denial) with
an empty body. -/
def hdlCompleteHeaders (env : Env) (c : AuthCtx) : AuthCtx × List Effect × TSEvent :=
  if 200 ≤ env.rstatus ∧ env.rstatus < 300 then
    (c, [], .immediate)
  else
    let goBody :=
      if c.read_body then
        if HttpIsChunkedEncoding env.rfields then false
        else decide (0 < HttpGetContentLength env.rfields)
      else false
    if goBody then (c, [], .httpContinue)
    else
      let (c, ef) := authChain c
      (c, ef, .httpSendResponseHdr)

/-- `StateAuthProxyReadContent` (authproxy.cc lines 619-637): once the
buffered byte count reaches the declared content length, chain the auth
proxy response; otherwise keep reading. -/
def hdlReadContent (env : Env) (c : AuthCtx) : AuthCtx × List Effect × TSEvent :=
  let avail := c.iobuf.length
  let needed := HttpGetContentLength env.rfields
  if needed ≤ avail then
    let (c, ef) := authChain c
    (c, ef, .httpSendResponseHdr)
  else
    (c, [], .tsContinue)

/-- `StateAuthProxyCompleteContent` (authproxy.cc lines 639-658): on end
of stream, if enough bytes are buffered chain the auth proxy response,
otherwise this is a premature EOS and yields `TS_EVENT_ERROR`. -/
def hdlCompleteContent (env : Env) (c : AuthCtx) : AuthCtx × List Effect × TSEvent :=
  let avail := c.iobuf.length
  let needed := HttpGetContentLength env.rfields
  if needed ≤ avail then
    let (c, ef) := authChain c
    (c, ef, .httpSendResponseHdr)
  else
    (c, [], .tsError)

/-- `StateAuthProxySendResponse` (authproxy.cc lines 517-555): copy the
secondary response header (status and fields) onto the client response,
set the transaction error body to `"<status> <reason>\n"`, force
`Content-Length: 0` for non-HEAD client requests, and reenable the
transaction with `TS_EVENT_HTTP_CONTINUE`. -/
def hdlSendResponse (env : Env) (c : AuthCtx) : AuthCtx × List Effect × TSEvent :=
  let msg := toString env.rstatus ++ " " ++ TSHttpHdrReasonLookup env.rstatus ++ "\n"
  let txn := { c.txn with
    respStatus := some env.rstatus
    respFields := some env.rfields
    errorBody := some msg }
  let (txn, clEff) :=
    if c.is_head then (txn, ([] : List Effect))
    else ({ txn with respCLZeroForced := true }, [.setRespCLZero])
  let txn := { txn with reenables := txn.reenables ++ [.httpContinue] }
  ({ c with txn := txn },
   [.hdrCopyToClient, .errorBodySet] ++ clEff ++ [.reenable .httpContinue],
   .tsContinue)

/-- `StateUnauthorized` (authproxy.cc lines 661-671): force a 403
Forbidden with the fixed body `"authorization denied\n"` and reenable the
transaction with `TS_EVENT_HTTP_ERROR`. -/
def hdlUnauthorized (c : AuthCtx) : AuthCtx × List Effect × TSEvent :=
  ({ c with txn := { c.txn with
      retStatus := some 403
      errorBody := some "authorization denied\n"
      reenables := c.txn.reenables ++ [.httpError] } },
   [.setRetStatus403, .errorBodySet, .reenable .httpError, .outcomeDenied],
   .tsContinue)

/-- `StateAuthorized` (authproxy.cc lines 674-689): if force-cacheability
is configured, set `TS_CONFIG_HTTP_CACHE_IGNORE_AUTHENTICATION`, then
reenable the transaction with `TS_EVENT_HTTP_CONTINUE`. -/
def hdlAuthorized (env : Env) (c : AuthCtx) : AuthCtx × List Effect × TSEvent :=
  let (c, forceEff) :=
    if env.force then
      ({ c with txn := { c.txn with ignoreAuth := true } },
       ([Effect.configIgnoreAuth] : List Effect))
    else (c, [])
  ({ c with txn := { c.txn with reenables := c.txn.reenables ++ [.httpContinue] } },
   forceEff ++ [.reenable .httpContinue, .outcomeAuthorized],
   .tsContinue)

/-- Dispatch table from handler name to handler body, for every handler
except `StateAuthProxyResolve` (which can nest a dispatch and is inlined
into `dispatch`). -/
def runHandlerPure (env : Env) (h : Handler) (c : AuthCtx)
    (ed : Option SockaddrModel) : AuthCtx × List Effect × TSEvent :=
  match h with
  | .hContinue => (c, [], .tsContinue)        -- StateContinue, lines 102-105
  | .hConnect => hdlConnect env c ed
  | .hWriteComplete => hdlWriteComplete c
  | .hReadHeaders => hdlReadHeaders env c
  | .hCompleteHeaders => hdlCompleteHeaders env c
  | .hReadContent => hdlReadContent env c
  | .hCompleteContent => hdlCompleteContent env c
  | .hSendResponse => hdlSendResponse env c
  | .hUnauthorized => hdlUnauthorized c
  | .hAuthorized => hdlAuthorized env c
  | .hResolve => (c, [], .tsContinue)         -- not reached; inlined in dispatch

/-! ## The dispatcher -/

/-- The return status of `AuthRequestContext::dispatch`.  `aborted`
models the failed `TSReleaseAssert(s->handler != NULL)` (and dispatching
on a destroyed context, which in C++ is a use after free).  `fuelOut` is
a model artifact: the recursion fuel ran out (never happens from
reachable configurations with the fuel used below). -/
inductive DispatchResult
  | returned
  | aborted
  | fuelOut
  deriving DecidableEq, Repr

/-- Internal: outcome of running one handler. -/
inductive HOut
  | ev (e : TSEvent)
  | fail (r : DispatchResult)
  deriving DecidableEq, Repr

/-- `AuthRequestContext::dispatch` (authproxy.cc lines 214-254).

The row list of the current table is scanned for the event; reaching the
sentinel (no matching row) fails the release assert (`aborted`).  The
`state` pointer is advanced to `s->next` *before* the handler runs.  A
handler return of `TS_EVENT_NONE` stops processing (a nested dispatch
already happened).  When the next-state pointer is null the context is
destroyed, then any event other than `TS_EVENT_CONTINUE` is pumped back
into the loop (`goto pump`) with the same event data.

`StateAuthProxyResolve` (authproxy.cc lines 386-424) is inlined here
because it may nest a dispatch: for the HEAD transform it extracts the
origin host (error event on failure), otherwise it uses the configured
auth proxy hostname; it then issues `TSHostLookup`, and if the lookup
completed inline (`TSActionDone`) — meaning the continuation already ran
a nested dispatch for `TS_EVENT_HOST_LOOKUP` inside `TSHostLookup` — it
returns `TS_EVENT_NONE`, else `TS_EVENT_CONTINUE`. -/
def dispatch : Nat → Env → AuthCtx → TSEvent → Option SockaddrModel →
    AuthCtx × List Effect × DispatchResult
  | 0, _, c, _, _ => (c, [], .fuelOut)
  | fuel+1, env, c, ev, ed =>
    match c.state with
    | none => (c, [], .aborted)
    | some tbl =>
      match (tableRows tbl).find? (fun r => r.event = ev) with
      | none => (c, [], .aborted)
      | some row =>
        let c1 := { c with state := row.next }
        let step : AuthCtx × List Effect × HOut :=
          if row.handler = .hResolve then
            if env.transformIsHead ∧ ¬ env.originHostOk then
              (c1, [], .ev .tsError)
            else if env.resolveInline then
              let n := dispatch fuel env c1 .hostLookup env.dnsResult
              match n.2.2 with
              | .returned => (n.1, .hostLookupIssued :: n.2.1, .ev .tsNone)
              | r => (n.1, .hostLookupIssued :: n.2.1, .fail r)
            else
              ({ c1 with pending := .lookup }, [.hostLookupIssued], .ev .tsContinue)
          else
            let h := runHandlerPure env row.handler c1 ed
            (h.1, h.2.1, .ev h.2.2)
        match step with
        | (c2, ef, .fail r) => (c2, .handledEvent ev :: ef, r)
        | (c2, ef, .ev e) =>
          if e = .tsNone then (c2, .handledEvent ev :: ef, .returned)
          else
            let dead := c2.state.isNone
            let c3 := if dead then
                { c2 with destroyed := true, vconn := false, pending := .idle }
              else c2
            let ef2 := if dead then ef ++ [.destroy] ++ destructorEffects c2 else ef
            if e = .tsContinue then (c3, .handledEvent ev :: ef2, .returned)
            else
              let r := dispatch fuel env c3 e ed
              (r.1, .handledEvent ev :: (ef2 ++ r.2.1), r.2.2)

/-! ## The event driver

The host delivers completion notifications for operations the attempt
has in flight.  A `Drive` step names one notification; it is only
allowed when the attempt actually has that operation pending (and the
attempt still exists).  `readChunk` models the host placing new bytes in
the attempt's read buffer before signalling read-ready/read-complete.
Induced failures are `lookupDone` with a null result (environment),
`connectOk = false` (environment), `writeFail`, `readFail`, and `readEos`
arriving early. -/
inductive Drive
  | lookupDone
  | writeDone
  | writeFail
  | readChunk (s : List Char) (last : Bool)
  | readEos
  | readFail
  | fireSendHook
  deriving DecidableEq, Repr

/-- Whether a driver step corresponds to an operation actually pending. -/
def allowedStep (c : AuthCtx) : Drive → Bool
  | .lookupDone => c.pending = .lookup
  | .writeDone => c.pending = .write
  | .writeFail => c.pending = .write
  | .readChunk _ _ => c.pending = .read
  | .readEos => c.pending = .read
  | .readFail => c.pending = .read
  | .fireSendHook => c.pending = .sendHook

/-- Deliver one host notification to the attempt: check it is allowed,
translate it to a `TSEvent` (appending arriving bytes to the read buffer
for read events), and dispatch.  `none` means the step was not allowed
or the dispatch did not return normally. -/
def driveStep (fuel : Nat) (env : Env) (c : AuthCtx) (d : Drive) :
    Option (AuthCtx × List Effect) :=
  if c.destroyed ∨ ¬ allowedStep c d then none
  else
    let (c, ev, ed) : AuthCtx × TSEvent × Option SockaddrModel :=
      match d with
      | .lookupDone => ({ c with pending := .idle }, .hostLookup, env.dnsResult)
      | .writeDone => ({ c with pending := .idle }, .vconnWriteComplete, none)
      | .writeFail => ({ c with pending := .idle }, .tsError, none)
      | .readChunk s last =>
          ({ c with iobuf := c.iobuf ++ s },
           if last then .vconnReadComplete else .vconnReadReady, none)
      | .readEos => ({ c with pending := .idle }, .vconnEos, none)
      | .readFail => ({ c with pending := .idle }, .tsError, none)
      | .fireSendHook => ({ c with pending := .idle }, .httpSendResponseHdr, none)
    match dispatch fuel env c ev ed with
    | (c2, tr, .returned) => some (c2, tr)
    | _ => none

/-- Deliver a sequence of host notifications, accumulating effects. -/
def runSteps (fuel : Nat) (env : Env) : AuthCtx → List Drive →
    Option (AuthCtx × List Effect)
  | c, [] => some (c, [])
  | c, d :: ds =>
    match driveStep fuel env c d with
    | none => none
    | some (c2, tr) =>
      match runSteps fuel env c2 ds with
      | none => none
      | some (c3, tr2) => some (c3, tr ++ tr2)

/-- The fresh context created by `AuthProxyGlobalHook` on
`TS_EVENT_HTTP_OS_DNS` (authproxy.cc lines 729-733): allocated with the
constructor defaults and `state = StateTableInit`. -/
def initCtx : AuthCtx := { state := some .init }

/-- Recursion fuel, written as a chain of successor definitions so proofs
can peel exactly as many levels as a dispatch needs. -/
def FUEL3 : Nat := Nat.succ (Nat.succ (Nat.succ 0))

/-- Fuel chain (4). -/
def FUEL4 : Nat := Nat.succ FUEL3

/-- Fuel chain (5). -/
def FUEL5 : Nat := Nat.succ FUEL4

/-- Fuel chain (6). -/
def FUEL6 : Nat := Nat.succ FUEL5

/-- Fuel chain (7). -/
def FUEL7 : Nat := Nat.succ FUEL6

/-- Recursion fuel (8): reachable configurations never pump or nest more
than a handful of dispatches, so this suffices (proved implicitly by all
run lemmas returning `.returned`). -/
def FUEL : Nat := Nat.succ FUEL7

/-- A complete authorization attempt: the host fires the OS_DNS hook,
`AuthProxyGlobalHook` creates the context and dispatches
`TS_EVENT_HTTP_OS_DNS` into it, then the host delivers the given
completion notifications. -/
def runAuth (env : Env) (steps : List Drive) : Option (AuthCtx × List Effect) :=
  match dispatch FUEL env initCtx .httpOsDns none with
  | (c, tr, .returned) =>
    match runSteps FUEL env c steps with
    | none => none
    | some (c2, tr2) => some (c2, tr ++ tr2)
  | _ => none

/-! ## Effect counting and the reachability invariant -/

/-- Recognize the destruction point effect. -/
def isDestroy : Effect → Bool
  | .destroy => true
  | _ => false

/-- Recognize a terminal outcome effect (Authorized or Denied decided). -/
def isOutcome : Effect → Bool
  | .outcomeAuthorized => true
  | .outcomeDenied => true
  | _ => false

/-- Recognize a `TSVConnClose` on the secondary connection. -/
def isVClose : Effect → Bool
  | .vconnClose => true
  | _ => false

/-- Recognize a successful `TSHttpConnect`. -/
def isConnected : Effect → Bool
  | .connected _ => true
  | _ => false

/-- Recognize `TSContDestroy` of the attempt's continuation. -/
def isContDestroyed : Effect → Bool
  | .contDestroyed => true
  | _ => false

/-- Recognize `TSHttpParserDestroy` of the attempt's parser. -/
def isHParserDestroyed : Effect → Bool
  | .parserDestroyed => true
  | _ => false

/-- Recognize the dispatcher handling (matching and invoking a handler
for) the given event. -/
def isHandledEv (ev : TSEvent) : Effect → Bool
  | .handledEvent e => e = ev
  | _ => false

/-- The reachability invariant of an attempt: every configuration the
state machine can be in between host notifications, together with the
effect counts accumulated so far.  A destroyed attempt has been destroyed
exactly once, decided exactly one outcome, and closed the secondary vconn
exactly as many times as it successfully connected (which is at most
once); a live attempt is in one of five configurations (awaiting lookup,
awaiting write completion, reading headers, reading body, awaiting the
send-response hook) with the matching counts. -/
def Reach (c : AuthCtx) (tr : List Effect) : Prop :=
  tr.countP isContDestroyed = tr.countP isDestroy ∧
  tr.countP isHParserDestroyed = tr.countP isDestroy ∧
  tr.countP isConnected ≤ 1 ∧
  ((c.destroyed = true ∧ c.state = none ∧ c.pending = .idle ∧ c.vconn = false ∧
      tr.countP isDestroy = 1 ∧ tr.countP isOutcome = 1 ∧
      tr.countP isVClose = tr.countP isConnected) ∨
   (c.destroyed = false ∧ tr.countP isDestroy = 0 ∧
     ((c.state = some .proxyRequest ∧ c.pending = .lookup ∧ c.vconn = false ∧
        tr.countP isOutcome = 0 ∧ tr.countP isVClose = 0 ∧ tr.countP isConnected = 0) ∨
      (c.state = some .proxyRequest ∧ c.pending = .write ∧ c.vconn = true ∧
        tr.countP isOutcome = 0 ∧ tr.countP isVClose = 0 ∧ tr.countP isConnected = 1) ∨
      (c.state = some .readHeader ∧ c.pending = .read ∧ c.vconn = true ∧
        tr.countP isOutcome = 0 ∧ tr.countP isVClose = 0 ∧ tr.countP isConnected = 1) ∨
      (c.state = some .readContent ∧ c.pending = .read ∧ c.vconn = true ∧
        tr.countP isOutcome = 0 ∧ tr.countP isVClose = 0 ∧ tr.countP isConnected = 1) ∨
      (c.state = some .sendResponse ∧ c.pending = .sendHook ∧ c.vconn = false ∧
        tr.countP isOutcome = 1 ∧ tr.countP isVClose = 1 ∧ tr.countP isConnected = 1))))


theorem dispatch_unauthorized (n : Nat) (env : Env) (c : AuthCtx) (ev : TSEvent)
    (ed : Option SockaddrModel) (tbl : Table)
    (hs : c.state = some tbl)
    (hrow : (tableRows tbl).find? (fun r => r.event = ev) = some ⟨ev, .hUnauthorized, none⟩) :
    dispatch (Nat.succ n) env c ev ed =
      ({ c with
          state := none
          destroyed := true
          vconn := false
          pending := .idle
          txn := { c.txn with
                   retStatus := some 403
                   errorBody := some "authorization denied\n"
                   reenables := c.txn.reenables ++ [.httpError] } },
       .handledEvent ev ::
         ([.setRetStatus403, .errorBodySet, .reenable .httpError, .outcomeDenied] ++
          [.destroy] ++ ([.contDestroyed, .parserDestroyed] ++
          (if c.vconn then [.vconnClose] else []))),
       .returned) := by
  simp [dispatch, hs, hrow, runHandlerPure, hdlUnauthorized, destructorEffects]

theorem dispatch_goto_sendResponse (n : Nat) (env : Env) (c : AuthCtx)
    (ed : Option SockaddrModel) (tbl : Table)
    (hs : c.state = some tbl)
    (hrow : (tableRows tbl).find? (fun r => r.event = .httpSendResponseHdr) =
      some ⟨.httpSendResponseHdr, .hContinue, some .sendResponse⟩) :
    dispatch (Nat.succ n) env c .httpSendResponseHdr ed =
      ({ c with state := some .sendResponse },
       [.handledEvent .httpSendResponseHdr], .returned) := by
  simp [dispatch, hs, hrow, runHandlerPure]

theorem dispatch_authorized (n : Nat) (env : Env) (c : AuthCtx) (ev : TSEvent)
    (ed : Option SockaddrModel) (tbl : Table)
    (hs : c.state = some tbl)
    (hrow : (tableRows tbl).find? (fun r => r.event = ev) = some ⟨ev, .hAuthorized, none⟩) :
    dispatch (Nat.succ n) env c ev ed =
      ({ c with
          state := none
          destroyed := true
          vconn := false
          pending := .idle
          txn := { c.txn with
                   ignoreAuth := if env.force then true else c.txn.ignoreAuth
                   reenables := c.txn.reenables ++ [.httpContinue] } },
       .handledEvent ev ::
         ((if env.force then [.configIgnoreAuth] else []) ++
          [.reenable .httpContinue, .outcomeAuthorized] ++
          [.destroy] ++ ([.contDestroyed, .parserDestroyed] ++
          (if c.vconn then [.vconnClose] else []))),
       .returned) := by
  cases hf : env.force <;>
    simp [dispatch, hs, hrow, runHandlerPure, hdlAuthorized, destructorEffects, hf]

theorem dispatch_sendResponse (n : Nat) (env : Env) (c : AuthCtx)
    (ed : Option SockaddrModel)
    (hs : c.state = some .sendResponse) :
    dispatch (Nat.succ n) env c .httpSendResponseHdr ed =
      ({ c with
          state := none
          destroyed := true
          vconn := false
          pending := .idle
          txn := { c.txn with
                   respStatus := some env.rstatus
                   respFields := some env.rfields
                   errorBody := some (toString env.rstatus ++ " " ++
                     TSHttpHdrReasonLookup env.rstatus ++ "\n")
                   respCLZeroForced := if c.is_head then c.txn.respCLZeroForced else true
                   reenables := c.txn.reenables ++ [.httpContinue] } },
       .handledEvent .httpSendResponseHdr ::
         ([.hdrCopyToClient, .errorBodySet] ++
          (if c.is_head then [] else [.setRespCLZero]) ++
          [.reenable .httpContinue] ++
          [.destroy] ++ ([.contDestroyed, .parserDestroyed] ++
          (if c.vconn then [.vconnClose] else []))),
       .returned) := by
  cases hh : c.is_head <;>
    simp [dispatch, hs, tableRows, stateTableSendResponse, List.find?,
      runHandlerPure, hdlSendResponse, destructorEffects, hh]


theorem dispatch_readContent_go (n : Nat) (env : Env) (c : AuthCtx) (ev : TSEvent)
    (ed : Option SockaddrModel) (tbl : Table)
    (hs : c.state = some tbl)
    (hrow : (tableRows tbl).find? (fun r => r.event = ev) =
      some ⟨ev, .hReadContent, some .readContent⟩)
    (hgo : HttpGetContentLength env.rfields ≤ c.iobuf.length) :
    dispatch (Nat.succ (Nat.succ n)) env c ev ed =
      ({ c with
          state := some .sendResponse
          vconn := false
          pending := .sendHook
          txn := { c.txn with
                   sendRespHookAdded := true
                   reenables := c.txn.reenables ++ [.httpError] } },
       .handledEvent ev ::
         ((if c.vconn then [.vconnClose] else []) ++
          [.hookAddSendResponse, .reenable .httpError, .outcomeDenied,
           .handledEvent .httpSendResponseHdr]),
       .returned) := by
  simp only [dispatch, hs, hrow, runHandlerPure, hdlReadContent, authChain, hgo]
  simp [dispatch, tableRows, stateTableProxyReadContent, stateTableSendResponse,
    List.find?, runHandlerPure, hgo]

theorem dispatch_readContent_wait (n : Nat) (env : Env) (c : AuthCtx) (ev : TSEvent)
    (ed : Option SockaddrModel) (tbl : Table)
    (hs : c.state = some tbl)
    (hrow : (tableRows tbl).find? (fun r => r.event = ev) =
      some ⟨ev, .hReadContent, some .readContent⟩)
    (hwait : ¬ HttpGetContentLength env.rfields ≤ c.iobuf.length) :
    dispatch (Nat.succ n) env c ev ed =
      ({ c with state := some .readContent }, [.handledEvent ev], .returned) := by
  simp [dispatch, hs, hrow, runHandlerPure, hdlReadContent, hwait]

theorem dispatch_completeContent_go (n : Nat) (env : Env) (c : AuthCtx)
    (ed : Option SockaddrModel)
    (hs : c.state = some .readContent)
    (hgo : HttpGetContentLength env.rfields ≤ c.iobuf.length) :
    dispatch (Nat.succ (Nat.succ n)) env c .vconnEos ed =
      ({ c with
          state := some .sendResponse
          vconn := false
          pending := .sendHook
          txn := { c.txn with
                   sendRespHookAdded := true
                   reenables := c.txn.reenables ++ [.httpError] } },
       .handledEvent .vconnEos ::
         ((if c.vconn then [.vconnClose] else []) ++
          [.hookAddSendResponse, .reenable .httpError, .outcomeDenied,
           .handledEvent .httpSendResponseHdr]),
       .returned) := by
  simp [dispatch, hs, tableRows, stateTableProxyReadContent, stateTableSendResponse,
    List.find?, runHandlerPure, hdlCompleteContent, authChain, hgo]

theorem dispatch_completeContent_fail (n : Nat) (env : Env) (c : AuthCtx)
    (ed : Option SockaddrModel)
    (hs : c.state = some .readContent)
    (hwait : ¬ HttpGetContentLength env.rfields ≤ c.iobuf.length) :
    dispatch (Nat.succ (Nat.succ n)) env c .vconnEos ed =
      ({ c with
          state := none
          destroyed := true
          vconn := false
          pending := .idle
          txn := { c.txn with
                   retStatus := some 403
                   errorBody := some "authorization denied\n"
                   reenables := c.txn.reenables ++ [.httpError] } },
       .handledEvent .vconnEos :: .handledEvent .tsError ::
         ([.setRetStatus403, .errorBodySet, .reenable .httpError, .outcomeDenied] ++
          [.destroy] ++ ([.contDestroyed, .parserDestroyed] ++
          (if c.vconn then [.vconnClose] else []))),
       .returned) := by
  simp [dispatch, hs, tableRows, stateTableProxyReadContent, List.find?,
    runHandlerPure, hdlCompleteContent, hdlUnauthorized, hwait, destructorEffects]

theorem dispatch_hostLookup_ok (n : Nat) (env : Env) (c : AuthCtx) (sa : SockaddrModel)
    (hs : c.state = some .proxyRequest)
    (hco : env.connectOk = true) :
    dispatch (Nat.succ n) env c .hostLookup (some sa) =
      ({ c with
          state := some .proxyRequest
          is_head := AuthRequestIsHead env.clientReq
          vconn := true
          read_body := if env.transformIsHead then false else c.read_body
          secondary := some (if env.transformIsHead then AuthWriteHeadRequest env.clientReq
            else AuthWriteRedirectedRequest { sa with port := env.hostport % 65536 }
              env.clientReq)
          pending := .write },
       [.handledEvent .hostLookup, .connected (env.hostport % 65536), .writeIssued],
       .returned) := by
  cases ht : env.transformIsHead <;>
    simp [dispatch, hs, tableRows, stateTableProxyRequest, List.find?,
      runHandlerPure, hdlConnect, hco, ht]

theorem dispatch_hostLookup_dnsFail (n : Nat) (env : Env) (c : AuthCtx)
    (hs : c.state = some .proxyRequest) :
    dispatch (Nat.succ (Nat.succ n)) env c .hostLookup none =
      ({ c with
          state := none
          destroyed := true
          vconn := false
          pending := .idle
          txn := { c.txn with
                   retStatus := some 403
                   errorBody := some "authorization denied\n"
                   reenables := c.txn.reenables ++ [.httpError] } },
       .handledEvent .hostLookup :: .handledEvent .tsError ::
         ([.setRetStatus403, .errorBodySet, .reenable .httpError, .outcomeDenied] ++
          [.destroy] ++ ([.contDestroyed, .parserDestroyed] ++
          (if c.vconn then [.vconnClose] else []))),
       .returned) := by
  simp [dispatch, hs, tableRows, stateTableProxyRequest, List.find?,
    runHandlerPure, hdlConnect, hdlUnauthorized, destructorEffects]

theorem dispatch_hostLookup_connectFail (n : Nat) (env : Env) (c : AuthCtx)
    (sa : SockaddrModel)
    (hs : c.state = some .proxyRequest)
    (hco : env.connectOk = false) :
    dispatch (Nat.succ (Nat.succ n)) env c .hostLookup (some sa) =
      ({ c with
          state := none
          destroyed := true
          vconn := false
          pending := .idle
          is_head := AuthRequestIsHead env.clientReq
          txn := { c.txn with
                   retStatus := some 403
                   errorBody := some "authorization denied\n"
                   reenables := c.txn.reenables ++ [.httpError] } },
       .handledEvent .hostLookup :: .handledEvent .tsError ::
         ([.setRetStatus403, .errorBodySet, .reenable .httpError, .outcomeDenied] ++
          [.destroy] ++ ([.contDestroyed, .parserDestroyed] ++
          (if c.vconn then [.vconnClose] else []))),
       .returned) := by
  simp [dispatch, hs, tableRows, stateTableProxyRequest, List.find?,
    runHandlerPure, hdlConnect, hdlUnauthorized, hco, destructorEffects]

theorem dispatch_writeComplete (n : Nat) (env : Env) (c : AuthCtx)
    (ed : Option SockaddrModel)
    (hs : c.state = some .proxyRequest) :
    dispatch (Nat.succ n) env c .vconnWriteComplete ed =
      ({ c with
          state := some .readHeader
          iobuf := []
          hdrConsumed := 0
          pending := .read },
       [.handledEvent .vconnWriteComplete, .readIssued], .returned) := by
  simp [dispatch, hs, tableRows, stateTableProxyRequest, List.find?,
    runHandlerPure, hdlWriteComplete]


theorem dispatch_readReqHdr_2xx (n : Nat) (env : Env) (c : AuthCtx)
    (ed : Option SockaddrModel)
    (hs : c.state = some .readHeader)
    (h2 : 200 ≤ env.rstatus ∧ env.rstatus < 300) :
    dispatch (Nat.succ (Nat.succ n)) env c .httpReadRequestHdr ed =
      ({ c with
          state := none
          destroyed := true
          vconn := false
          pending := .idle
          txn := { c.txn with
                   ignoreAuth := if env.force then true else c.txn.ignoreAuth
                   reenables := c.txn.reenables ++ [.httpContinue] } },
       .handledEvent .httpReadRequestHdr :: .handledEvent .immediate ::
         ((if env.force then [.configIgnoreAuth] else []) ++
          [.reenable .httpContinue, .outcomeAuthorized] ++
          [.destroy] ++ ([.contDestroyed, .parserDestroyed] ++
          (if c.vconn then [.vconnClose] else []))),
       .returned) := by
  cases hf : env.force <;>
    simp [dispatch, hs, tableRows, stateTableProxyReadHeader, List.find?,
      runHandlerPure, hdlCompleteHeaders, hdlAuthorized, destructorEffects,
      h2.1, h2.2, hf]

theorem dispatch_readReqHdr_deny (n : Nat) (env : Env) (c : AuthCtx)
    (ed : Option SockaddrModel)
    (hs : c.state = some .readHeader)
    (h2 : ¬ (200 ≤ env.rstatus ∧ env.rstatus < 300))
    (hno : c.read_body = false ∨ HttpIsChunkedEncoding env.rfields = true ∨
      HttpGetContentLength env.rfields = 0) :
    dispatch (Nat.succ (Nat.succ n)) env c .httpReadRequestHdr ed =
      ({ c with
          state := some .sendResponse
          vconn := false
          pending := .sendHook
          txn := { c.txn with
                   sendRespHookAdded := true
                   reenables := c.txn.reenables ++ [.httpError] } },
       .handledEvent .httpReadRequestHdr ::
         ((if c.vconn then [.vconnClose] else []) ++
          [.hookAddSendResponse, .reenable .httpError, .outcomeDenied,
           .handledEvent .httpSendResponseHdr]),
       .returned) := by
  rcases hno with hno | hno | hno <;>
    simp [dispatch, hs, tableRows, stateTableProxyReadHeader,
      stateTableSendResponse, List.find?, runHandlerPure, hdlCompleteHeaders,
      authChain, h2, hno]

theorem dispatch_readReqHdr_body_go (n : Nat) (env : Env) (c : AuthCtx)
    (ed : Option SockaddrModel)
    (hs : c.state = some .readHeader)
    (h2 : ¬ (200 ≤ env.rstatus ∧ env.rstatus < 300))
    (hrb : c.read_body = true)
    (hck : HttpIsChunkedEncoding env.rfields = false)
    (hcl : 0 < HttpGetContentLength env.rfields)
    (hgo : HttpGetContentLength env.rfields ≤ c.iobuf.length) :
    dispatch (Nat.succ (Nat.succ (Nat.succ n))) env c .httpReadRequestHdr ed =
      ({ c with
          state := some .sendResponse
          vconn := false
          pending := .sendHook
          txn := { c.txn with
                   sendRespHookAdded := true
                   reenables := c.txn.reenables ++ [.httpError] } },
       .handledEvent .httpReadRequestHdr :: .handledEvent .httpContinue ::
         ((if c.vconn then [.vconnClose] else []) ++
          [.hookAddSendResponse, .reenable .httpError, .outcomeDenied,
           .handledEvent .httpSendResponseHdr]),
       .returned) := by
  simp [dispatch, hs, tableRows, stateTableProxyReadHeader, stateTableProxyReadContent,
    stateTableSendResponse, List.find?, runHandlerPure, hdlCompleteHeaders,
    hdlReadContent, authChain, h2, hrb, hck, hcl, hgo, Nat.not_lt.mpr hgo]

theorem dispatch_readReqHdr_body_wait (n : Nat) (env : Env) (c : AuthCtx)
    (ed : Option SockaddrModel)
    (hs : c.state = some .readHeader)
    (h2 : ¬ (200 ≤ env.rstatus ∧ env.rstatus < 300))
    (hrb : c.read_body = true)
    (hck : HttpIsChunkedEncoding env.rfields = false)
    (hcl : 0 < HttpGetContentLength env.rfields)
    (hwait : ¬ HttpGetContentLength env.rfields ≤ c.iobuf.length) :
    dispatch (Nat.succ (Nat.succ (Nat.succ n))) env c .httpReadRequestHdr ed =
      ({ c with state := some .readContent },
       [.handledEvent .httpReadRequestHdr, .handledEvent .httpContinue],
       .returned) := by
  simp [dispatch, hs, tableRows, stateTableProxyReadHeader, stateTableProxyReadContent,
    List.find?, runHandlerPure, hdlCompleteHeaders, hdlReadContent, h2, hrb, hck,
    hcl, hwait]


theorem dispatch_readHeaders_empty (n : Nat) (env : Env) (c : AuthCtx) (ev : TSEvent)
    (ed : Option SockaddrModel)
    (hs : c.state = some .readHeader)
    (hrow : (tableRows .readHeader).find? (fun r => r.event = ev) =
      some ⟨ev, .hReadHeaders, some .readHeader⟩)
    (hempty : c.iobuf.length = 0) :
    dispatch (Nat.succ n) env c ev ed =
      ({ c with state := some .readHeader }, [.handledEvent ev], .returned) := by
  simp [dispatch, hs, hrow, runHandlerPure, hdlReadHeaders, hempty]

theorem dispatch_readHeaders_malformed (n : Nat) (env : Env) (c : AuthCtx) (ev : TSEvent)
    (ed : Option SockaddrModel)
    (hs : c.state = some .readHeader)
    (hrow : (tableRows .readHeader).find? (fun r => r.event = ev) =
      some ⟨ev, .hReadHeaders, some .readHeader⟩)
    (hne : ¬ c.iobuf.length = 0)
    (hmf : env.malformed = true) :
    dispatch (Nat.succ (Nat.succ n)) env c ev ed =
      ({ c with
          state := none
          destroyed := true
          vconn := false
          pending := .idle
          txn := { c.txn with
                   retStatus := some 403
                   errorBody := some "authorization denied\n"
                   reenables := c.txn.reenables ++ [.httpError] } },
       .handledEvent ev :: .handledEvent .tsError ::
         ([.setRetStatus403, .errorBodySet, .reenable .httpError, .outcomeDenied] ++
          [.destroy] ++ ([.contDestroyed, .parserDestroyed] ++
          (if c.vconn then [.vconnClose] else []))),
       .returned) := by
  simp only [dispatch, hs, hrow, runHandlerPure, hdlReadHeaders, hne, hmf]
  simp [dispatch, tableRows, stateTableProxyReadHeader, List.find?, runHandlerPure,
    hdlUnauthorized, destructorEffects, hne]

theorem dispatch_readHeaders_incomplete (n : Nat) (env : Env) (c : AuthCtx) (ev : TSEvent)
    (ed : Option SockaddrModel)
    (hs : c.state = some .readHeader)
    (hrow : (tableRows .readHeader).find? (fun r => r.event = ev) =
      some ⟨ev, .hReadHeaders, some .readHeader⟩)
    (hne : ¬ c.iobuf.length = 0)
    (hmf : env.malformed = false)
    (hlt : ¬ env.headerLen ≤ c.hdrConsumed + c.iobuf.length) :
    dispatch (Nat.succ n) env c ev ed =
      ({ c with
          state := some .readHeader
          iobuf := []
          hdrConsumed := c.hdrConsumed + c.iobuf.length },
       [.handledEvent ev], .returned) := by
  simp [dispatch, hs, hrow, runHandlerPure, hdlReadHeaders, hne, hmf, hlt]

theorem dispatch_readHeaders_complete_2xx (n : Nat) (env : Env) (c : AuthCtx)
    (ev : TSEvent) (ed : Option SockaddrModel)
    (hs : c.state = some .readHeader)
    (hrow : (tableRows .readHeader).find? (fun r => r.event = ev) =
      some ⟨ev, .hReadHeaders, some .readHeader⟩)
    (hne : ¬ c.iobuf.length = 0)
    (hmf : env.malformed = false)
    (hcmp : env.headerLen ≤ c.hdrConsumed + c.iobuf.length)
    (h2 : 200 ≤ env.rstatus ∧ env.rstatus < 300) :
    dispatch (Nat.succ (Nat.succ (Nat.succ n))) env c ev ed =
      ({ c with
          state := none
          destroyed := true
          vconn := false
          pending := .idle
          iobuf := c.iobuf.drop (env.headerLen - c.hdrConsumed)
          hdrConsumed := env.headerLen
          headersDone := true
          txn := { c.txn with
                   ignoreAuth := if env.force then true else c.txn.ignoreAuth
                   reenables := c.txn.reenables ++ [.httpContinue] } },
       .handledEvent ev :: .handledEvent .httpReadRequestHdr :: .handledEvent .immediate ::
         ((if env.force then [.configIgnoreAuth] else []) ++
          [.reenable .httpContinue, .outcomeAuthorized] ++
          [.destroy] ++ ([.contDestroyed, .parserDestroyed] ++
          (if c.vconn then [.vconnClose] else []))),
       .returned) := by
  have hpump := dispatch_readReqHdr_2xx n env
    { c with
        state := some .readHeader
        iobuf := c.iobuf.drop (env.headerLen - c.hdrConsumed)
        hdrConsumed := env.headerLen
        headersDone := true } ed rfl h2
  generalize hm : Nat.succ (Nat.succ n) = m at hpump ⊢
  simp only [dispatch, hs, hrow, runHandlerPure, hdlReadHeaders, hne, hmf, hcmp]
  simp [hpump, hne, hmf, hcmp]

theorem dispatch_readHeaders_complete_deny (n : Nat) (env : Env) (c : AuthCtx)
    (ev : TSEvent) (ed : Option SockaddrModel)
    (hs : c.state = some .readHeader)
    (hrow : (tableRows .readHeader).find? (fun r => r.event = ev) =
      some ⟨ev, .hReadHeaders, some .readHeader⟩)
    (hne : ¬ c.iobuf.length = 0)
    (hmf : env.malformed = false)
    (hcmp : env.headerLen ≤ c.hdrConsumed + c.iobuf.length)
    (h2 : ¬ (200 ≤ env.rstatus ∧ env.rstatus < 300))
    (hno : c.read_body = false ∨ HttpIsChunkedEncoding env.rfields = true ∨
      HttpGetContentLength env.rfields = 0) :
    dispatch (Nat.succ (Nat.succ (Nat.succ n))) env c ev ed =
      ({ c with
          state := some .sendResponse
          vconn := false
          pending := .sendHook
          iobuf := c.iobuf.drop (env.headerLen - c.hdrConsumed)
          hdrConsumed := env.headerLen
          headersDone := true
          txn := { c.txn with
                   sendRespHookAdded := true
                   reenables := c.txn.reenables ++ [.httpError] } },
       .handledEvent ev :: .handledEvent .httpReadRequestHdr ::
         ((if c.vconn then [.vconnClose] else []) ++
          [.hookAddSendResponse, .reenable .httpError, .outcomeDenied,
           .handledEvent .httpSendResponseHdr]),
       .returned) := by
  have hpump := dispatch_readReqHdr_deny n env
    { c with
        state := some .readHeader
        iobuf := c.iobuf.drop (env.headerLen - c.hdrConsumed)
        hdrConsumed := env.headerLen
        headersDone := true } ed rfl h2 (by simpa using hno)
  generalize hm : Nat.succ (Nat.succ n) = m at hpump ⊢
  simp only [dispatch, hs, hrow, runHandlerPure, hdlReadHeaders, hne, hmf, hcmp]
  simp [hpump, hne, hmf, hcmp]

theorem dispatch_readHeaders_complete_body_go (n : Nat) (env : Env) (c : AuthCtx)
    (ev : TSEvent) (ed : Option SockaddrModel)
    (hs : c.state = some .readHeader)
    (hrow : (tableRows .readHeader).find? (fun r => r.event = ev) =
      some ⟨ev, .hReadHeaders, some .readHeader⟩)
    (hne : ¬ c.iobuf.length = 0)
    (hmf : env.malformed = false)
    (hcmp : env.headerLen ≤ c.hdrConsumed + c.iobuf.length)
    (h2 : ¬ (200 ≤ env.rstatus ∧ env.rstatus < 300))
    (hrb : c.read_body = true)
    (hck : HttpIsChunkedEncoding env.rfields = false)
    (hcl : 0 < HttpGetContentLength env.rfields)
    (hgo : HttpGetContentLength env.rfields ≤
      (c.iobuf.drop (env.headerLen - c.hdrConsumed)).length) :
    dispatch (Nat.succ (Nat.succ (Nat.succ (Nat.succ n)))) env c ev ed =
      ({ c with
          state := some .sendResponse
          vconn := false
          pending := .sendHook
          iobuf := c.iobuf.drop (env.headerLen - c.hdrConsumed)
          hdrConsumed := env.headerLen
          headersDone := true
          txn := { c.txn with
                   sendRespHookAdded := true
                   reenables := c.txn.reenables ++ [.httpError] } },
       .handledEvent ev :: .handledEvent .httpReadRequestHdr ::
         .handledEvent .httpContinue ::
         ((if c.vconn then [.vconnClose] else []) ++
          [.hookAddSendResponse, .reenable .httpError, .outcomeDenied,
           .handledEvent .httpSendResponseHdr]),
       .returned) := by
  have hpump := dispatch_readReqHdr_body_go n env
    { c with
        state := some .readHeader
        iobuf := c.iobuf.drop (env.headerLen - c.hdrConsumed)
        hdrConsumed := env.headerLen
        headersDone := true } ed rfl h2 (by simpa using hrb) hck hcl (by simpa using hgo)
  generalize hm : Nat.succ (Nat.succ (Nat.succ n)) = m at hpump ⊢
  simp only [dispatch, hs, hrow, runHandlerPure, hdlReadHeaders, hne, hmf, hcmp]
  simp [hpump, hne, hmf, hcmp]

theorem dispatch_readHeaders_complete_body_wait (n : Nat) (env : Env) (c : AuthCtx)
    (ev : TSEvent) (ed : Option SockaddrModel)
    (hs : c.state = some .readHeader)
    (hrow : (tableRows .readHeader).find? (fun r => r.event = ev) =
      some ⟨ev, .hReadHeaders, some .readHeader⟩)
    (hne : ¬ c.iobuf.length = 0)
    (hmf : env.malformed = false)
    (hcmp : env.headerLen ≤ c.hdrConsumed + c.iobuf.length)
    (h2 : ¬ (200 ≤ env.rstatus ∧ env.rstatus < 300))
    (hrb : c.read_body = true)
    (hck : HttpIsChunkedEncoding env.rfields = false)
    (hcl : 0 < HttpGetContentLength env.rfields)
    (hwait : ¬ HttpGetContentLength env.rfields ≤
      (c.iobuf.drop (env.headerLen - c.hdrConsumed)).length) :
    dispatch (Nat.succ (Nat.succ (Nat.succ (Nat.succ n)))) env c ev ed =
      ({ c with
          state := some .readContent
          iobuf := c.iobuf.drop (env.headerLen - c.hdrConsumed)
          hdrConsumed := env.headerLen
          headersDone := true },
       [.handledEvent ev, .handledEvent .httpReadRequestHdr,
        .handledEvent .httpContinue],
       .returned) := by
  have hpump := dispatch_readReqHdr_body_wait n env
    { c with
        state := some .readHeader
        iobuf := c.iobuf.drop (env.headerLen - c.hdrConsumed)
        hdrConsumed := env.headerLen
        headersDone := true } ed rfl h2 (by simpa using hrb) hck hcl (by simpa using hwait)
  generalize hm : Nat.succ (Nat.succ (Nat.succ n)) = m at hpump ⊢
  simp only [dispatch, hs, hrow, runHandlerPure, hdlReadHeaders, hne, hmf, hcmp]
  simp [hpump, hne, hmf, hcmp]


theorem dispatch_init_headFail (n : Nat) (env : Env) (c : AuthCtx)
    (ed : Option SockaddrModel)
    (hs : c.state = some .init)
    (hth : env.transformIsHead = true)
    (hoh : env.originHostOk = false) :
    dispatch (Nat.succ (Nat.succ n)) env c .httpOsDns ed =
      ({ c with
          state := none
          destroyed := true
          vconn := false
          pending := .idle
          txn := { c.txn with
                   retStatus := some 403
                   errorBody := some "authorization denied\n"
                   reenables := c.txn.reenables ++ [.httpError] } },
       .handledEvent .httpOsDns :: .handledEvent .tsError ::
         ([.setRetStatus403, .errorBodySet, .reenable .httpError, .outcomeDenied] ++
          [.destroy] ++ ([.contDestroyed, .parserDestroyed] ++
          (if c.vconn then [.vconnClose] else []))),
       .returned) := by
  simp [dispatch, hs, tableRows, stateTableInit, stateTableProxyRequest, List.find?,
    runHandlerPure, hdlUnauthorized, destructorEffects, hth, hoh]

theorem dispatch_init_async (n : Nat) (env : Env) (c : AuthCtx)
    (ed : Option SockaddrModel)
    (hs : c.state = some .init)
    (hok : env.transformIsHead = false ∨ env.originHostOk = true)
    (hri : env.resolveInline = false) :
    dispatch (Nat.succ n) env c .httpOsDns ed =
      ({ c with state := some .proxyRequest, pending := .lookup },
       [.handledEvent .httpOsDns, .hostLookupIssued], .returned) := by
  rcases hok with hok | hok <;>
    simp [dispatch, hs, tableRows, stateTableInit, List.find?, hok, hri]

theorem dispatch_init_inline_dnsFail (n : Nat) (env : Env) (c : AuthCtx)
    (ed : Option SockaddrModel)
    (hs : c.state = some .init)
    (hok : env.transformIsHead = false ∨ env.originHostOk = true)
    (hri : env.resolveInline = true)
    (hdns : env.dnsResult = none) :
    dispatch (Nat.succ (Nat.succ (Nat.succ n))) env c .httpOsDns ed =
      ({ c with
          state := none
          destroyed := true
          vconn := false
          pending := .idle
          txn := { c.txn with
                   retStatus := some 403
                   errorBody := some "authorization denied\n"
                   reenables := c.txn.reenables ++ [.httpError] } },
       .handledEvent .httpOsDns :: .hostLookupIssued ::
         .handledEvent .hostLookup :: .handledEvent .tsError ::
         ([.setRetStatus403, .errorBodySet, .reenable .httpError, .outcomeDenied] ++
          [.destroy] ++ ([.contDestroyed, .parserDestroyed] ++
          (if c.vconn then [.vconnClose] else []))),
       .returned) := by
  have hnest := dispatch_hostLookup_dnsFail n env
    { c with state := some Table.proxyRequest } rfl
  generalize hm : Nat.succ (Nat.succ n) = m at hnest ⊢
  rcases hok with hok | hok <;>
  · simp only [dispatch, hs, tableRows, stateTableInit, List.find?, hok, hri, hdns]
    simp [hnest, hok, hri]

theorem dispatch_init_inline_connectFail (n : Nat) (env : Env) (c : AuthCtx)
    (ed : Option SockaddrModel) (sa : SockaddrModel)
    (hs : c.state = some .init)
    (hok : env.transformIsHead = false ∨ env.originHostOk = true)
    (hri : env.resolveInline = true)
    (hdns : env.dnsResult = some sa)
    (hco : env.connectOk = false) :
    dispatch (Nat.succ (Nat.succ (Nat.succ n))) env c .httpOsDns ed =
      ({ c with
          state := none
          destroyed := true
          vconn := false
          pending := .idle
          is_head := AuthRequestIsHead env.clientReq
          txn := { c.txn with
                   retStatus := some 403
                   errorBody := some "authorization denied\n"
                   reenables := c.txn.reenables ++ [.httpError] } },
       .handledEvent .httpOsDns :: .hostLookupIssued ::
         .handledEvent .hostLookup :: .handledEvent .tsError ::
         ([.setRetStatus403, .errorBodySet, .reenable .httpError, .outcomeDenied] ++
          [.destroy] ++ ([.contDestroyed, .parserDestroyed] ++
          (if c.vconn then [.vconnClose] else []))),
       .returned) := by
  have hnest := dispatch_hostLookup_connectFail n env
    { c with state := some Table.proxyRequest } sa rfl hco
  generalize hm : Nat.succ (Nat.succ n) = m at hnest ⊢
  rcases hok with hok | hok <;>
  · simp only [dispatch, hs, tableRows, stateTableInit, List.find?, hok, hri, hdns]
    simp [hnest, hok, hri]

theorem dispatch_init_inline_ok (n : Nat) (env : Env) (c : AuthCtx)
    (ed : Option SockaddrModel) (sa : SockaddrModel)
    (hs : c.state = some .init)
    (hok : env.transformIsHead = false ∨ env.originHostOk = true)
    (hri : env.resolveInline = true)
    (hdns : env.dnsResult = some sa)
    (hco : env.connectOk = true) :
    dispatch (Nat.succ (Nat.succ n)) env c .httpOsDns ed =
      ({ c with
          state := some .proxyRequest
          is_head := AuthRequestIsHead env.clientReq
          vconn := true
          read_body := if env.transformIsHead then false else c.read_body
          secondary := some (if env.transformIsHead then AuthWriteHeadRequest env.clientReq
            else AuthWriteRedirectedRequest { sa with port := env.hostport % 65536 }
              env.clientReq)
          pending := .write },
       .handledEvent .httpOsDns :: .hostLookupIssued ::
         [.handledEvent .hostLookup, .connected (env.hostport % 65536), .writeIssued],
       .returned) := by
  have hnest := dispatch_hostLookup_ok n env
    { c with state := some Table.proxyRequest } sa rfl hco
  generalize hm : Nat.succ n = m at hnest ⊢
  rcases hok with hok | hok <;>
  · simp only [dispatch, hs, tableRows, stateTableInit, List.find?, hok, hri, hdns]
    simp [hnest, hok, hri]


theorem reach_start (env : Env) :
    (dispatch FUEL env initCtx .httpOsDns none).2.2 = .returned ∧
    Reach (dispatch FUEL env initCtx .httpOsDns none).1
          (dispatch FUEL env initCtx .httpOsDns none).2.1 := by
  by_cases hbad : env.transformIsHead = true ∧ env.originHostOk = false
  · rw [show FUEL = Nat.succ (Nat.succ FUEL6) from rfl,
      dispatch_init_headFail FUEL6 env initCtx none rfl hbad.1 hbad.2]
    simp [Reach, initCtx, List.countP_cons, List.countP_nil,
      isDestroy, isOutcome, isVClose, isConnected, isContDestroyed, isHParserDestroyed]
  · have hok : env.transformIsHead = false ∨ env.originHostOk = true := by
      cases hth : env.transformIsHead <;> cases hoh : env.originHostOk <;> simp_all
    cases hri : env.resolveInline
    · rw [show FUEL = Nat.succ FUEL7 from rfl,
        dispatch_init_async FUEL7 env initCtx none rfl hok hri]
      simp [Reach, initCtx, List.countP_cons, List.countP_nil,
        isDestroy, isOutcome, isVClose, isConnected, isContDestroyed, isHParserDestroyed]
    · rcases hdns : env.dnsResult with _ | sa
      · rw [show FUEL = Nat.succ (Nat.succ (Nat.succ FUEL5)) from rfl,
          dispatch_init_inline_dnsFail FUEL5 env initCtx none rfl hok hri hdns]
        simp [Reach, initCtx, List.countP_cons, List.countP_nil,
          isDestroy, isOutcome, isVClose, isConnected, isContDestroyed, isHParserDestroyed]
      · cases hco : env.connectOk
        · rw [show FUEL = Nat.succ (Nat.succ (Nat.succ FUEL5)) from rfl,
            dispatch_init_inline_connectFail FUEL5 env initCtx none sa rfl hok hri hdns hco]
          simp [Reach, initCtx, List.countP_cons, List.countP_nil,
            isDestroy, isOutcome, isVClose, isConnected, isContDestroyed, isHParserDestroyed]
        · rw [show FUEL = Nat.succ (Nat.succ FUEL6) from rfl,
            dispatch_init_inline_ok FUEL6 env initCtx none sa rfl hok hri hdns hco]
          simp [Reach, initCtx, List.countP_cons, List.countP_nil,
            isDestroy, isOutcome, isVClose, isConnected, isContDestroyed, isHParserDestroyed]

theorem reach_step_A (env : Env) (c : AuthCtx) (tr : List Effect) (d : Drive)
    (c2 : AuthCtx) (tr2 : List Effect)
    (hs : c.state = some .proxyRequest) (hp : c.pending = .lookup) (hv : c.vconn = false)
    (hdd : c.destroyed = false)
    (ho : tr.countP isOutcome = 0) (hvc : tr.countP isVClose = 0)
    (hk : tr.countP isConnected = 0) (hd0 : tr.countP isDestroy = 0)
    (hcd : tr.countP isContDestroyed = 0) (hpd : tr.countP isHParserDestroyed = 0)
    (h : driveStep FUEL env c d = some (c2, tr2)) :
    Reach c2 (tr ++ tr2) := by
  cases d
  case lookupDone =>
    simp [driveStep, allowedStep, hp, hdd] at h
    rcases hdns : env.dnsResult with _ | sa <;> rw [hdns] at h
    · rw [show FUEL = Nat.succ (Nat.succ FUEL6) from rfl,
        dispatch_hostLookup_dnsFail FUEL6 env { c with pending := Pending.idle, destroyed := false } hs] at h
      simp only [hv] at h
      simp at h
      obtain ⟨rfl, rfl⟩ := h
      simp [Reach, List.countP_append, List.countP_cons, List.countP_nil,
        isDestroy, isOutcome, isVClose, isConnected, isContDestroyed, isHParserDestroyed,
        ho, hvc, hk, hd0, hcd, hpd]
    · cases hco : env.connectOk
      · rw [show FUEL = Nat.succ (Nat.succ FUEL6) from rfl,
          dispatch_hostLookup_connectFail FUEL6 env { c with pending := Pending.idle, destroyed := false } sa hs hco] at h
        simp only [hv] at h
        simp at h
        obtain ⟨rfl, rfl⟩ := h
        simp [Reach, List.countP_append, List.countP_cons, List.countP_nil,
          isDestroy, isOutcome, isVClose, isConnected, isContDestroyed, isHParserDestroyed,
          ho, hvc, hk, hd0, hcd, hpd]
      · rw [show FUEL = Nat.succ FUEL7 from rfl,
          dispatch_hostLookup_ok FUEL7 env { c with pending := Pending.idle, destroyed := false } sa hs hco] at h
        simp at h
        obtain ⟨rfl, rfl⟩ := h
        simp [Reach, List.countP_append, List.countP_cons, List.countP_nil,
          isDestroy, isOutcome, isVClose, isConnected, isContDestroyed, isHParserDestroyed,
          ho, hvc, hk, hd0, hcd, hpd]
  all_goals simp_all [driveStep, allowedStep, hp, hdd]

theorem reach_step_B (env : Env) (c : AuthCtx) (tr : List Effect) (d : Drive)
    (c2 : AuthCtx) (tr2 : List Effect)
    (hs : c.state = some .proxyRequest) (hp : c.pending = .write) (hv : c.vconn = true)
    (hdd : c.destroyed = false)
    (ho : tr.countP isOutcome = 0) (hvc : tr.countP isVClose = 0)
    (hk : tr.countP isConnected = 1) (hd0 : tr.countP isDestroy = 0)
    (hcd : tr.countP isContDestroyed = 0) (hpd : tr.countP isHParserDestroyed = 0)
    (h : driveStep FUEL env c d = some (c2, tr2)) :
    Reach c2 (tr ++ tr2) := by
  cases d
  case writeDone =>
    simp [driveStep, allowedStep, hp, hdd] at h
    rw [show FUEL = Nat.succ FUEL7 from rfl,
      dispatch_writeComplete FUEL7 env { c with pending := Pending.idle, destroyed := false } none hs] at h
    simp at h
    obtain ⟨rfl, rfl⟩ := h
    simp [Reach, List.countP_append, List.countP_cons, List.countP_nil,
      isDestroy, isOutcome, isVClose, isConnected, isContDestroyed, isHParserDestroyed,
      ho, hvc, hk, hd0, hcd, hpd, hv]
  case writeFail =>
    simp [driveStep, allowedStep, hp, hdd] at h
    rw [show FUEL = Nat.succ FUEL7 from rfl,
      dispatch_unauthorized FUEL7 env { c with pending := Pending.idle, destroyed := false } .tsError none
        .proxyRequest hs (by decide)] at h
    simp only [hv] at h
    simp at h
    obtain ⟨rfl, rfl⟩ := h
    simp [Reach, List.countP_append, List.countP_cons, List.countP_nil,
      isDestroy, isOutcome, isVClose, isConnected, isContDestroyed, isHParserDestroyed,
      ho, hvc, hk, hd0, hcd, hpd]
  all_goals simp_all [driveStep, allowedStep, hp, hdd]


theorem reach_step_D (env : Env) (c : AuthCtx) (tr : List Effect) (d : Drive)
    (c2 : AuthCtx) (tr2 : List Effect)
    (hs : c.state = some .sendResponse) (hp : c.pending = .sendHook) (hv : c.vconn = false)
    (hdd : c.destroyed = false)
    (ho : tr.countP isOutcome = 1) (hvc : tr.countP isVClose = 1)
    (hk : tr.countP isConnected = 1) (hd0 : tr.countP isDestroy = 0)
    (hcd : tr.countP isContDestroyed = 0) (hpd : tr.countP isHParserDestroyed = 0)
    (h : driveStep FUEL env c d = some (c2, tr2)) :
    Reach c2 (tr ++ tr2) := by
  cases d
  case fireSendHook =>
    simp [driveStep, allowedStep, hp, hdd] at h
    rw [show FUEL = Nat.succ FUEL7 from rfl,
      dispatch_sendResponse FUEL7 env { c with pending := Pending.idle, destroyed := false }
        none hs] at h
    simp only [hv] at h
    cases hih : c.is_head <;> simp only [hih] at h <;>
    · simp at h
      obtain ⟨rfl, rfl⟩ := h
      simp [Reach, List.countP_append, List.countP_cons, List.countP_nil,
        isDestroy, isOutcome, isVClose, isConnected, isContDestroyed, isHParserDestroyed,
        ho, hvc, hk, hd0, hcd, hpd]
  all_goals simp_all [driveStep, allowedStep, hp, hdd]

theorem reach_step_E (env : Env) (c : AuthCtx) (tr : List Effect) (d : Drive)
    (c2 : AuthCtx) (tr2 : List Effect)
    (hs : c.state = some .readContent) (hp : c.pending = .read) (hv : c.vconn = true)
    (hdd : c.destroyed = false)
    (ho : tr.countP isOutcome = 0) (hvc : tr.countP isVClose = 0)
    (hk : tr.countP isConnected = 1) (hd0 : tr.countP isDestroy = 0)
    (hcd : tr.countP isContDestroyed = 0) (hpd : tr.countP isHParserDestroyed = 0)
    (h : driveStep FUEL env c d = some (c2, tr2)) :
    Reach c2 (tr ++ tr2) := by
  cases d
  case readChunk s last =>
    cases last
    case false =>
      simp [driveStep, allowedStep, hp, hdd] at h
      by_cases hgo : HttpGetContentLength env.rfields ≤ (c.iobuf ++ s).length
      · rw [show FUEL = Nat.succ (Nat.succ FUEL6) from rfl] at h
        rw [dispatch_readContent_go FUEL6 env
          { c with iobuf := c.iobuf ++ s, pending := Pending.read, destroyed := false }
          .vconnReadReady none .readContent hs (by decide) hgo] at h
        simp only [hv] at h
        simp at h
        obtain ⟨rfl, rfl⟩ := h
        simp [Reach, List.countP_append, List.countP_cons, List.countP_nil,
          isDestroy, isOutcome, isVClose, isConnected, isContDestroyed, isHParserDestroyed,
          ho, hvc, hk, hd0, hcd, hpd]
      · rw [show FUEL = Nat.succ FUEL7 from rfl] at h
        rw [dispatch_readContent_wait FUEL7 env
          { c with iobuf := c.iobuf ++ s, pending := Pending.read, destroyed := false }
          .vconnReadReady none .readContent hs (by decide) hgo] at h
        simp at h
        obtain ⟨rfl, rfl⟩ := h
        simp [Reach, List.countP_append, List.countP_cons, List.countP_nil,
          isDestroy, isOutcome, isVClose, isConnected, isContDestroyed, isHParserDestroyed,
          ho, hvc, hk, hd0, hcd, hpd, hp, hv]
    case true =>
      simp [driveStep, allowedStep, hp, hdd] at h
      by_cases hgo : HttpGetContentLength env.rfields ≤ (c.iobuf ++ s).length
      · rw [show FUEL = Nat.succ (Nat.succ FUEL6) from rfl] at h
        rw [dispatch_readContent_go FUEL6 env
          { c with iobuf := c.iobuf ++ s, pending := Pending.read, destroyed := false }
          .vconnReadComplete none .readContent hs (by decide) hgo] at h
        simp only [hv] at h
        simp at h
        obtain ⟨rfl, rfl⟩ := h
        simp [Reach, List.countP_append, List.countP_cons, List.countP_nil,
          isDestroy, isOutcome, isVClose, isConnected, isContDestroyed, isHParserDestroyed,
          ho, hvc, hk, hd0, hcd, hpd]
      · rw [show FUEL = Nat.succ FUEL7 from rfl] at h
        rw [dispatch_readContent_wait FUEL7 env
          { c with iobuf := c.iobuf ++ s, pending := Pending.read, destroyed := false }
          .vconnReadComplete none .readContent hs (by decide) hgo] at h
        simp at h
        obtain ⟨rfl, rfl⟩ := h
        simp [Reach, List.countP_append, List.countP_cons, List.countP_nil,
          isDestroy, isOutcome, isVClose, isConnected, isContDestroyed, isHParserDestroyed,
          ho, hvc, hk, hd0, hcd, hpd, hp, hv]
  case readEos =>
    simp [driveStep, allowedStep, hp, hdd] at h
    by_cases hgo : HttpGetContentLength env.rfields ≤ c.iobuf.length
    · rw [show FUEL = Nat.succ (Nat.succ FUEL6) from rfl,
        dispatch_completeContent_go FUEL6 env
          { c with pending := Pending.idle, destroyed := false } none hs hgo] at h
      simp only [hv] at h
      simp at h
      obtain ⟨rfl, rfl⟩ := h
      simp [Reach, List.countP_append, List.countP_cons, List.countP_nil,
        isDestroy, isOutcome, isVClose, isConnected, isContDestroyed, isHParserDestroyed,
        ho, hvc, hk, hd0, hcd, hpd]
    · rw [show FUEL = Nat.succ (Nat.succ FUEL6) from rfl,
        dispatch_completeContent_fail FUEL6 env
          { c with pending := Pending.idle, destroyed := false } none hs hgo] at h
      simp only [hv] at h
      simp at h
      obtain ⟨rfl, rfl⟩ := h
      simp [Reach, List.countP_append, List.countP_cons, List.countP_nil,
        isDestroy, isOutcome, isVClose, isConnected, isContDestroyed, isHParserDestroyed,
        ho, hvc, hk, hd0, hcd, hpd]
  case readFail =>
    simp [driveStep, allowedStep, hp, hdd] at h
    rw [show FUEL = Nat.succ FUEL7 from rfl,
      dispatch_unauthorized FUEL7 env { c with pending := Pending.idle, destroyed := false }
        .tsError none .readContent hs (by decide)] at h
    simp only [hv] at h
    simp at h
    obtain ⟨rfl, rfl⟩ := h
    simp [Reach, List.countP_append, List.countP_cons, List.countP_nil,
      isDestroy, isOutcome, isVClose, isConnected, isContDestroyed, isHParserDestroyed,
      ho, hvc, hk, hd0, hcd, hpd]
  all_goals simp_all [driveStep, allowedStep, hp, hdd]


theorem reach_step_C (env : Env) (c : AuthCtx) (tr : List Effect) (d : Drive)
    (c2 : AuthCtx) (tr2 : List Effect)
    (hs : c.state = some .readHeader) (hp : c.pending = .read) (hv : c.vconn = true)
    (hdd : c.destroyed = false)
    (ho : tr.countP isOutcome = 0) (hvc : tr.countP isVClose = 0)
    (hk : tr.countP isConnected = 1) (hd0 : tr.countP isDestroy = 0)
    (hcd : tr.countP isContDestroyed = 0) (hpd : tr.countP isHParserDestroyed = 0)
    (h : driveStep FUEL env c d = some (c2, tr2)) :
    Reach c2 (tr ++ tr2) := by
  cases d
  case readChunk s last =>
    cases last
    ·
      simp [driveStep, allowedStep, hp, hdd] at h
      by_cases hempty : (c.iobuf ++ s).length = 0
      · rw [show FUEL = Nat.succ FUEL7 from rfl] at h
        rw [dispatch_readHeaders_empty FUEL7 env
          { c with iobuf := c.iobuf ++ s, pending := Pending.read, destroyed := false }
          .vconnReadReady none hs (by decide) hempty] at h
        simp at h
        obtain ⟨rfl, rfl⟩ := h
        simp [Reach, List.countP_append, List.countP_cons, List.countP_nil,
          isDestroy, isOutcome, isVClose, isConnected, isContDestroyed, isHParserDestroyed,
          ho, hvc, hk, hd0, hcd, hpd, hp, hv]
      · cases hmf : env.malformed
        · by_cases hcmp : env.headerLen ≤ c.hdrConsumed + (c.iobuf ++ s).length
          · by_cases h2 : 200 ≤ env.rstatus ∧ env.rstatus < 300
            · rw [show FUEL = Nat.succ (Nat.succ (Nat.succ FUEL5)) from rfl] at h
              rw [dispatch_readHeaders_complete_2xx FUEL5 env
                { c with iobuf := c.iobuf ++ s, pending := Pending.read, destroyed := false }
                .vconnReadReady none hs (by decide) hempty hmf hcmp h2] at h
              simp only [hv] at h
              cases hf : env.force <;> simp only [hf] at h <;>
              · simp at h
                obtain ⟨rfl, rfl⟩ := h
                simp [Reach, List.countP_append, List.countP_cons, List.countP_nil,
                  isDestroy, isOutcome, isVClose, isConnected, isContDestroyed, isHParserDestroyed,
                  ho, hvc, hk, hd0, hcd, hpd, hp, hv]
            · by_cases hrb : c.read_body = true
              · cases hck : HttpIsChunkedEncoding env.rfields
                · by_cases hcl : 0 < HttpGetContentLength env.rfields
                  · by_cases hgo : HttpGetContentLength env.rfields ≤
                      ((c.iobuf ++ s).drop (env.headerLen - c.hdrConsumed)).length
                    · rw [show FUEL = Nat.succ (Nat.succ (Nat.succ (Nat.succ FUEL4))) from rfl] at h
                      rw [dispatch_readHeaders_complete_body_go FUEL4 env
                        { c with iobuf := c.iobuf ++ s, pending := Pending.read, destroyed := false }
                        .vconnReadReady none hs (by decide) hempty hmf hcmp h2 hrb hck hcl hgo] at h
                      simp only [hv] at h
                      simp at h
                      obtain ⟨rfl, rfl⟩ := h
                      simp [Reach, List.countP_append, List.countP_cons, List.countP_nil,
                        isDestroy, isOutcome, isVClose, isConnected, isContDestroyed, isHParserDestroyed,
                        ho, hvc, hk, hd0, hcd, hpd, hp, hv]
                    · rw [show FUEL = Nat.succ (Nat.succ (Nat.succ (Nat.succ FUEL4))) from rfl] at h
                      rw [dispatch_readHeaders_complete_body_wait FUEL4 env
                        { c with iobuf := c.iobuf ++ s, pending := Pending.read, destroyed := false }
                        .vconnReadReady none hs (by decide) hempty hmf hcmp h2 hrb hck hcl hgo] at h
                      simp at h
                      obtain ⟨rfl, rfl⟩ := h
                      simp [Reach, List.countP_append, List.countP_cons, List.countP_nil,
                        isDestroy, isOutcome, isVClose, isConnected, isContDestroyed, isHParserDestroyed,
                        ho, hvc, hk, hd0, hcd, hpd, hp, hv]
                  · rw [show FUEL = Nat.succ (Nat.succ (Nat.succ FUEL5)) from rfl] at h
                    rw [dispatch_readHeaders_complete_deny FUEL5 env
                      { c with iobuf := c.iobuf ++ s, pending := Pending.read, destroyed := false }
                      .vconnReadReady none hs (by decide) hempty hmf hcmp h2 (Or.inr (Or.inr (by omega)))] at h
                    simp only [hv] at h
                    simp at h
                    obtain ⟨rfl, rfl⟩ := h
                    simp [Reach, List.countP_append, List.countP_cons, List.countP_nil,
                      isDestroy, isOutcome, isVClose, isConnected, isContDestroyed, isHParserDestroyed,
                      ho, hvc, hk, hd0, hcd, hpd, hp, hv]
                · rw [show FUEL = Nat.succ (Nat.succ (Nat.succ FUEL5)) from rfl] at h
                  rw [dispatch_readHeaders_complete_deny FUEL5 env
                    { c with iobuf := c.iobuf ++ s, pending := Pending.read, destroyed := false }
                    .vconnReadReady none hs (by decide) hempty hmf hcmp h2 (Or.inr (Or.inl hck))] at h
                  simp only [hv] at h
                  simp at h
                  obtain ⟨rfl, rfl⟩ := h
                  simp [Reach, List.countP_append, List.countP_cons, List.countP_nil,
                    isDestroy, isOutcome, isVClose, isConnected, isContDestroyed, isHParserDestroyed,
                    ho, hvc, hk, hd0, hcd, hpd, hp, hv]
              · rw [show FUEL = Nat.succ (Nat.succ (Nat.succ FUEL5)) from rfl] at h
                rw [dispatch_readHeaders_complete_deny FUEL5 env
                  { c with iobuf := c.iobuf ++ s, pending := Pending.read, destroyed := false }
                  .vconnReadReady none hs (by decide) hempty hmf hcmp h2 (Or.inl (by simpa using hrb))] at h
                simp only [hv] at h
                simp at h
                obtain ⟨rfl, rfl⟩ := h
                simp [Reach, List.countP_append, List.countP_cons, List.countP_nil,
                  isDestroy, isOutcome, isVClose, isConnected, isContDestroyed, isHParserDestroyed,
                  ho, hvc, hk, hd0, hcd, hpd, hp, hv]
          · rw [show FUEL = Nat.succ FUEL7 from rfl] at h
            rw [dispatch_readHeaders_incomplete FUEL7 env
              { c with iobuf := c.iobuf ++ s, pending := Pending.read, destroyed := false }
              .vconnReadReady none hs (by decide) hempty hmf hcmp] at h
            simp at h
            obtain ⟨rfl, rfl⟩ := h
            simp [Reach, List.countP_append, List.countP_cons, List.countP_nil,
              isDestroy, isOutcome, isVClose, isConnected, isContDestroyed, isHParserDestroyed,
              ho, hvc, hk, hd0, hcd, hpd, hp, hv]
        · rw [show FUEL = Nat.succ (Nat.succ FUEL6) from rfl] at h
          rw [dispatch_readHeaders_malformed FUEL6 env
            { c with iobuf := c.iobuf ++ s, pending := Pending.read, destroyed := false }
            .vconnReadReady none hs (by decide) hempty hmf] at h
          simp only [hv] at h
          simp at h
          obtain ⟨rfl, rfl⟩ := h
          simp [Reach, List.countP_append, List.countP_cons, List.countP_nil,
            isDestroy, isOutcome, isVClose, isConnected, isContDestroyed, isHParserDestroyed,
            ho, hvc, hk, hd0, hcd, hpd, hp, hv]
    ·
      simp [driveStep, allowedStep, hp, hdd] at h
      by_cases hempty : (c.iobuf ++ s).length = 0
      · rw [show FUEL = Nat.succ FUEL7 from rfl] at h
        rw [dispatch_readHeaders_empty FUEL7 env
          { c with iobuf := c.iobuf ++ s, pending := Pending.read, destroyed := false }
          .vconnReadComplete none hs (by decide) hempty] at h
        simp at h
        obtain ⟨rfl, rfl⟩ := h
        simp [Reach, List.countP_append, List.countP_cons, List.countP_nil,
          isDestroy, isOutcome, isVClose, isConnected, isContDestroyed, isHParserDestroyed,
          ho, hvc, hk, hd0, hcd, hpd, hp, hv]
      · cases hmf : env.malformed
        · by_cases hcmp : env.headerLen ≤ c.hdrConsumed + (c.iobuf ++ s).length
          · by_cases h2 : 200 ≤ env.rstatus ∧ env.rstatus < 300
            · rw [show FUEL = Nat.succ (Nat.succ (Nat.succ FUEL5)) from rfl] at h
              rw [dispatch_readHeaders_complete_2xx FUEL5 env
                { c with iobuf := c.iobuf ++ s, pending := Pending.read, destroyed := false }
                .vconnReadComplete none hs (by decide) hempty hmf hcmp h2] at h
              simp only [hv] at h
              cases hf : env.force <;> simp only [hf] at h <;>
              · simp at h
                obtain ⟨rfl, rfl⟩ := h
                simp [Reach, List.countP_append, List.countP_cons, List.countP_nil,
                  isDestroy, isOutcome, isVClose, isConnected, isContDestroyed, isHParserDestroyed,
                  ho, hvc, hk, hd0, hcd, hpd, hp, hv]
            · by_cases hrb : c.read_body = true
              · cases hck : HttpIsChunkedEncoding env.rfields
                · by_cases hcl : 0 < HttpGetContentLength env.rfields
                  · by_cases hgo : HttpGetContentLength env.rfields ≤
                      ((c.iobuf ++ s).drop (env.headerLen - c.hdrConsumed)).length
                    · rw [show FUEL = Nat.succ (Nat.succ (Nat.succ (Nat.succ FUEL4))) from rfl] at h
                      rw [dispatch_readHeaders_complete_body_go FUEL4 env
                        { c with iobuf := c.iobuf ++ s, pending := Pending.read, destroyed := false }
                        .vconnReadComplete none hs (by decide) hempty hmf hcmp h2 hrb hck hcl hgo] at h
                      simp only [hv] at h
                      simp at h
                      obtain ⟨rfl, rfl⟩ := h
                      simp [Reach, List.countP_append, List.countP_cons, List.countP_nil,
                        isDestroy, isOutcome, isVClose, isConnected, isContDestroyed, isHParserDestroyed,
                        ho, hvc, hk, hd0, hcd, hpd, hp, hv]
                    · rw [show FUEL = Nat.succ (Nat.succ (Nat.succ (Nat.succ FUEL4))) from rfl] at h
                      rw [dispatch_readHeaders_complete_body_wait FUEL4 env
                        { c with iobuf := c.iobuf ++ s, pending := Pending.read, destroyed := false }
                        .vconnReadComplete none hs (by decide) hempty hmf hcmp h2 hrb hck hcl hgo] at h
                      simp at h
                      obtain ⟨rfl, rfl⟩ := h
                      simp [Reach, List.countP_append, List.countP_cons, List.countP_nil,
                        isDestroy, isOutcome, isVClose, isConnected, isContDestroyed, isHParserDestroyed,
                        ho, hvc, hk, hd0, hcd, hpd, hp, hv]
                  · rw [show FUEL = Nat.succ (Nat.succ (Nat.succ FUEL5)) from rfl] at h
                    rw [dispatch_readHeaders_complete_deny FUEL5 env
                      { c with iobuf := c.iobuf ++ s, pending := Pending.read, destroyed := false }
                      .vconnReadComplete none hs (by decide) hempty hmf hcmp h2 (Or.inr (Or.inr (by omega)))] at h
                    simp only [hv] at h
                    simp at h
                    obtain ⟨rfl, rfl⟩ := h
                    simp [Reach, List.countP_append, List.countP_cons, List.countP_nil,
                      isDestroy, isOutcome, isVClose, isConnected, isContDestroyed, isHParserDestroyed,
                      ho, hvc, hk, hd0, hcd, hpd, hp, hv]
                · rw [show FUEL = Nat.succ (Nat.succ (Nat.succ FUEL5)) from rfl] at h
                  rw [dispatch_readHeaders_complete_deny FUEL5 env
                    { c with iobuf := c.iobuf ++ s, pending := Pending.read, destroyed := false }
                    .vconnReadComplete none hs (by decide) hempty hmf hcmp h2 (Or.inr (Or.inl hck))] at h
                  simp only [hv] at h
                  simp at h
                  obtain ⟨rfl, rfl⟩ := h
                  simp [Reach, List.countP_append, List.countP_cons, List.countP_nil,
                    isDestroy, isOutcome, isVClose, isConnected, isContDestroyed, isHParserDestroyed,
                    ho, hvc, hk, hd0, hcd, hpd, hp, hv]
              · rw [show FUEL = Nat.succ (Nat.succ (Nat.succ FUEL5)) from rfl] at h
                rw [dispatch_readHeaders_complete_deny FUEL5 env
                  { c with iobuf := c.iobuf ++ s, pending := Pending.read, destroyed := false }
                  .vconnReadComplete none hs (by decide) hempty hmf hcmp h2 (Or.inl (by simpa using hrb))] at h
                simp only [hv] at h
                simp at h
                obtain ⟨rfl, rfl⟩ := h
                simp [Reach, List.countP_append, List.countP_cons, List.countP_nil,
                  isDestroy, isOutcome, isVClose, isConnected, isContDestroyed, isHParserDestroyed,
                  ho, hvc, hk, hd0, hcd, hpd, hp, hv]
          · rw [show FUEL = Nat.succ FUEL7 from rfl] at h
            rw [dispatch_readHeaders_incomplete FUEL7 env
              { c with iobuf := c.iobuf ++ s, pending := Pending.read, destroyed := false }
              .vconnReadComplete none hs (by decide) hempty hmf hcmp] at h
            simp at h
            obtain ⟨rfl, rfl⟩ := h
            simp [Reach, List.countP_append, List.countP_cons, List.countP_nil,
              isDestroy, isOutcome, isVClose, isConnected, isContDestroyed, isHParserDestroyed,
              ho, hvc, hk, hd0, hcd, hpd, hp, hv]
        · rw [show FUEL = Nat.succ (Nat.succ FUEL6) from rfl] at h
          rw [dispatch_readHeaders_malformed FUEL6 env
            { c with iobuf := c.iobuf ++ s, pending := Pending.read, destroyed := false }
            .vconnReadComplete none hs (by decide) hempty hmf] at h
          simp only [hv] at h
          simp at h
          obtain ⟨rfl, rfl⟩ := h
          simp [Reach, List.countP_append, List.countP_cons, List.countP_nil,
            isDestroy, isOutcome, isVClose, isConnected, isContDestroyed, isHParserDestroyed,
            ho, hvc, hk, hd0, hcd, hpd, hp, hv]
  case readEos =>
    simp [driveStep, allowedStep, hp, hdd] at h
    rw [show FUEL = Nat.succ FUEL7 from rfl,
      dispatch_unauthorized FUEL7 env { c with pending := Pending.idle, destroyed := false }
        .vconnEos none .readHeader hs (by decide)] at h
    simp only [hv] at h
    simp at h
    obtain ⟨rfl, rfl⟩ := h
    simp [Reach, List.countP_append, List.countP_cons, List.countP_nil,
      isDestroy, isOutcome, isVClose, isConnected, isContDestroyed, isHParserDestroyed,
      ho, hvc, hk, hd0, hcd, hpd]
  case readFail =>
    simp [driveStep, allowedStep, hp, hdd] at h
    rw [show FUEL = Nat.succ FUEL7 from rfl,
      dispatch_unauthorized FUEL7 env { c with pending := Pending.idle, destroyed := false }
        .tsError none .readHeader hs (by decide)] at h
    simp only [hv] at h
    simp at h
    obtain ⟨rfl, rfl⟩ := h
    simp [Reach, List.countP_append, List.countP_cons, List.countP_nil,
      isDestroy, isOutcome, isVClose, isConnected, isContDestroyed, isHParserDestroyed,
      ho, hvc, hk, hd0, hcd, hpd]
  all_goals simp_all [driveStep, allowedStep, hp, hdd]


theorem reach_step (env : Env) (c : AuthCtx) (tr : List Effect) (d : Drive)
    (c2 : AuthCtx) (tr2 : List Effect)
    (hR : Reach c tr) (h : driveStep FUEL env c d = some (c2, tr2)) :
    Reach c2 (tr ++ tr2) := by
  obtain ⟨hcd, hpd, hk1, hcase⟩ := hR
  rcases hcase with ⟨hdd, _⟩ | ⟨hdd, hd0, hclass⟩
  · simp [driveStep, hdd] at h
  · have hcd0 : tr.countP isContDestroyed = 0 := hcd.trans hd0
    have hpd0 : tr.countP isHParserDestroyed = 0 := hpd.trans hd0
    rcases hclass with ⟨hs, hp, hv, ho, hvc, hk⟩ | ⟨hs, hp, hv, ho, hvc, hk⟩ |
      ⟨hs, hp, hv, ho, hvc, hk⟩ | ⟨hs, hp, hv, ho, hvc, hk⟩ | ⟨hs, hp, hv, ho, hvc, hk⟩
    · exact reach_step_A env c tr d c2 tr2 hs hp hv hdd ho hvc hk hd0 hcd0 hpd0 h
    · exact reach_step_B env c tr d c2 tr2 hs hp hv hdd ho hvc hk hd0 hcd0 hpd0 h
    · exact reach_step_C env c tr d c2 tr2 hs hp hv hdd ho hvc hk hd0 hcd0 hpd0 h
    · exact reach_step_E env c tr d c2 tr2 hs hp hv hdd ho hvc hk hd0 hcd0 hpd0 h
    · exact reach_step_D env c tr d c2 tr2 hs hp hv hdd ho hvc hk hd0 hcd0 hpd0 h

theorem reach_runSteps (env : Env) : ∀ (steps : List Drive) (c : AuthCtx)
    (tr : List Effect) (c2 : AuthCtx) (tr2 : List Effect), Reach c tr →
    runSteps FUEL env c steps = some (c2, tr2) → Reach c2 (tr ++ tr2) := by
  intro steps
  induction steps with
  | nil =>
    intro c tr c2 tr2 hR h
    simp [runSteps] at h
    obtain ⟨rfl, rfl⟩ := h
    simpa using hR
  | cons d ds ih =>
    intro c tr c2 tr2 hR h
    simp only [runSteps] at h
    rcases hd : driveStep FUEL env c d with _ | ⟨cm, trm⟩ <;> rw [hd] at h
    · simp at h
    · rcases hrs : runSteps FUEL env cm ds with _ | ⟨cf, trf⟩
      · simp [hrs] at h
      · simp [hrs] at h
        obtain ⟨rfl, rfl⟩ := h
        have h1 := reach_step env c tr d cm trm hR hd
        have h2 := ih cm (tr ++ trm) cf trf h1 hrs
        simpa [List.append_assoc] using h2

theorem runAuth_reach (env : Env) (steps : List Drive) (c : AuthCtx)
    (tr : List Effect) (h : runAuth env steps = some (c, tr)) : Reach c tr := by
  have hst := reach_start env
  unfold runAuth at h
  rcases hdisp : dispatch FUEL env initCtx .httpOsDns none with ⟨c0, tr0, r⟩
  rw [hdisp] at h hst
  simp at hst
  obtain ⟨hr, hreach⟩ := hst
  subst hr
  rcases hrs : runSteps FUEL env c0 steps with _ | ⟨cf, trf⟩
  · simp [hrs] at h
  · simp [hrs] at h
    obtain ⟨rfl, rfl⟩ := h
    exact reach_runSteps env steps c0 tr0 cf trf hreach hrs

/-- The final context of a completed model run (`initCtx` if none). -/
def runCtx (env : Env) (steps : List Drive) : AuthCtx :=
  ((runAuth env steps).map Prod.fst).getD initCtx

/-- The full effect trace of a model run (empty if the run is invalid). -/
def runTrace (env : Env) (steps : List Drive) : List Effect :=
  ((runAuth env steps).map Prod.snd).getD []


/-- C1: For every authorization attempt, exactly one terminal outcome
(Authorized or Denied) is reached, and the secondary connection handle
owned by the attempt is closed exactly once whenever it was acquired
(`vconnClose` count equals `connected` count, which is at most one), on
every path the host can drive, including induced failures at each state;
the attempt's resources (continuation, parser, connection) are released
at the single destruction point (`AuthRequestContext::destroy`, run
exactly once) that runs when the state machine's next-state pointer has
become null. -/
theorem claim_C1 (env : Env) (steps : List Drive)
    (hsome : (runAuth env steps).isSome = true)
    (hdone : (runCtx env steps).destroyed = true) :
    (runTrace env steps).countP isDestroy = 1 ∧
    (runTrace env steps).countP isOutcome = 1 ∧
    (runTrace env steps).countP isVClose = (runTrace env steps).countP isConnected ∧
    (runTrace env steps).countP isConnected ≤ 1 ∧
    (runTrace env steps).countP isContDestroyed = 1 ∧
    (runTrace env steps).countP isHParserDestroyed = 1 ∧
    (runCtx env steps).state = none := by
  rcases hrun : runAuth env steps with _ | ⟨c, tr⟩
  · rw [hrun] at hsome
    simp at hsome
  · have hre := runAuth_reach env steps c tr hrun
    obtain ⟨hcd, hpd, hk1, hcase⟩ := hre
    simp only [runCtx, runTrace, hrun, Option.map_some', Option.getD_some] at hdone ⊢
    rcases hcase with ⟨hdd, hst, _, _, hd1, ho1, hvc⟩ | ⟨hdd, _⟩
    · exact ⟨hd1, ho1, hvc, hk1, hcd.trans hd1, hpd.trans hd1, hst⟩
    · rw [hdone] at hdd
      exact absurd hdd (by simp)

/-- A concrete attempt used by the C1 witness: redirect transform,
asynchronous resolution succeeding, connect succeeding, and then an
induced write failure (`TS_EVENT_ERROR` while the request write is in
flight). -/
def envC1w : Env :=
  { transformIsHead := false
    force := false
    hostport := 8080
    originHostOk := true
    resolveInline := false
    dnsResult := some { isV6 := false, addrText := "10.0.0.1", port := 0 }
    connectOk := true
    clientReq := { method := "GET", urlHost := "example.com", urlPort := 80,
                   headers := [], body := "" }
    headerLen := 2
    malformed := false
    rstatus := 500
    rfields := [("Content-Length", "3")] }

/-- The C1 witness driver script: resolution completes, then the write
fails. -/
def stepsC1w : List Drive := [.lookupDone, .writeFail]

/-- Witness for C1 at a concrete failure-injected run. -/
theorem claim_C1_witness :
    (runTrace envC1w stepsC1w).countP isDestroy = 1 ∧
    (runTrace envC1w stepsC1w).countP isOutcome = 1 ∧
    (runTrace envC1w stepsC1w).countP isVClose =
      (runTrace envC1w stepsC1w).countP isConnected ∧
    (runTrace envC1w stepsC1w).countP isConnected ≤ 1 ∧
    (runTrace envC1w stepsC1w).countP isContDestroyed = 1 ∧
    (runTrace envC1w stepsC1w).countP isHParserDestroyed = 1 ∧
    (runCtx envC1w stepsC1w).state = none :=
  claim_C1 envC1w stepsC1w (by decide) (by decide)


/-- Recognize the Authorized terminal decision. -/
def isAuthorizedOutcome : Effect → Bool
  | .outcomeAuthorized => true
  | _ => false

/-- Recognize a Denied terminal decision. -/
def isDeniedOutcome : Effect → Bool
  | .outcomeDenied => true
  | _ => false

/-- Recognize a `TSVConnRead` being issued. -/
def isReadIssued : Effect → Bool
  | .readIssued => true
  | _ => false

/-- The raw 16-bit values handed to `TSHttpConnect` in the sockaddr port
field over a trace. -/
def connectedPortValues (tr : List Effect) : List Nat :=
  tr.filterMap (fun e => match e with | .connected p => some p | _ => none)

/-- The 16-bit big-endian (network byte order) encoding of a port value,
expressed as the native integer a little-endian host must store in
`sin_port` / `sin6_port`. -/
def hton16 (p : Nat) : Nat := (p % 256) * 256 + (p / 256) % 256

/-- C8: If an event arrives for which the attempt's current state table
declares no handler, the scan reaches the `TS_EVENT_NONE` sentinel and
`TSReleaseAssert(s->handler != NULL)` fails: dispatch aborts the process
(modelled as the `aborted` result), with the context unchanged and no
effects — a missing handler is never a silent no-op and is never
converted into a denial of the request. -/
theorem claim_C8 (fuel : Nat) (env : Env) (c : AuthCtx) (ev : TSEvent)
    (ed : Option SockaddrModel) (tbl : Table)
    (hs : c.state = some tbl)
    (hnone : (tableRows tbl).find? (fun r => r.event = ev) = none) :
    dispatch (Nat.succ fuel) env c ev ed = (c, [], .aborted) := by
  simp [dispatch, hs, hnone]

/-- Witness for C8: a read-ready event delivered while the attempt sits
in `StateTableSendResponse` (which only accepts SEND_RESPONSE_HDR)
aborts. -/
theorem claim_C8_witness :
    dispatch (Nat.succ 0) envC1w { state := some Table.sendResponse }
      .vconnReadReady none = ({ state := some Table.sendResponse }, [], .aborted) :=
  claim_C8 0 envC1w { state := some Table.sendResponse } .vconnReadReady none
    .sendResponse rfl (by decide)

/-- C10: Both request transforms force `Content-Length: 0` and
`Cache-Control: no-cache` onto the serialized secondary request, so the
secondary request never carries the original request's body — even under
the redirect-to-auth-service strategy when the original method (for
example POST) had a body: the transforms are insensitive to the original
body, the serialized bytes contain the header only (`body = ""`), and
only the original request's headers are copied.  The HEAD transform
forces the method to HEAD; the redirect transform keeps the original
method. -/
theorem claim_C10 (orig : HttpRequest) (saddr : SockaddrModel) :
    getMimeHeader (AuthWriteHeadRequest orig).headers "Content-Length" = some "0" ∧
    getMimeHeader (AuthWriteHeadRequest orig).headers "Cache-Control" = some "no-cache" ∧
    (AuthWriteHeadRequest orig).body = "" ∧
    (AuthWriteHeadRequest orig).method = "HEAD" ∧
    getMimeHeader (AuthWriteRedirectedRequest saddr orig).headers "Content-Length" =
      some "0" ∧
    getMimeHeader (AuthWriteRedirectedRequest saddr orig).headers "Cache-Control" =
      some "no-cache" ∧
    (AuthWriteRedirectedRequest saddr orig).body = "" ∧
    (AuthWriteRedirectedRequest saddr orig).method = orig.method ∧
    (∀ b : String, AuthWriteHeadRequest { orig with body := b } =
      AuthWriteHeadRequest orig) ∧
    (∀ b : String, AuthWriteRedirectedRequest saddr { orig with body := b } =
      AuthWriteRedirectedRequest saddr orig) := by
  refine ⟨?_, ?_, rfl, rfl, ?_, ?_, rfl, rfl, fun b => rfl, fun b => rfl⟩ <;>
  · simp [AuthWriteHeadRequest, AuthWriteRedirectedRequest, HttpSetMimeHeader,
      getMimeHeader, List.find?_append]
    try exact ⟨_, Or.inr ⟨by tauto, rfl⟩⟩


/-- C7: Each completion notification delivered to an attempt causes
exactly one state transition, even when the issued host lookup completes
synchronously before `TSHostLookup` returns: the dispatcher advances the
current-state pointer before invoking the matched handler (so the nested
dispatch for `TS_EVENT_HOST_LOOKUP` finds `StateTableProxyRequest` and
does not abort), and `StateAuthProxyResolve`, observing `TSActionDone`,
returns `TS_EVENT_NONE` so the outer dispatch stops without re-processing
the event: across the whole (nested plus outer) dispatch, the
`TS_EVENT_HOST_LOOKUP` completion is handled exactly once — never zero
and never twice — and the dispatch returns normally. -/
theorem claim_C7 (env : Env)
    (hok : env.transformIsHead = false ∨ env.originHostOk = true)
    (hri : env.resolveInline = true) :
    (dispatch FUEL env initCtx .httpOsDns none).2.2 = .returned ∧
    ((dispatch FUEL env initCtx .httpOsDns none).2.1).countP
      (isHandledEv .hostLookup) = 1 ∧
    ((dispatch FUEL env initCtx .httpOsDns none).2.1).countP
      (isHandledEv .httpOsDns) = 1 := by
  rcases hdns : env.dnsResult with _ | sa
  · rw [show FUEL = Nat.succ (Nat.succ (Nat.succ FUEL5)) from rfl,
      dispatch_init_inline_dnsFail FUEL5 env initCtx none rfl hok hri hdns]
    simp [initCtx, List.countP_cons, List.countP_nil, isHandledEv]
  · cases hco : env.connectOk
    · rw [show FUEL = Nat.succ (Nat.succ (Nat.succ FUEL5)) from rfl,
        dispatch_init_inline_connectFail FUEL5 env initCtx none sa rfl hok hri hdns hco]
      simp [initCtx, List.countP_cons, List.countP_nil, isHandledEv]
    · rw [show FUEL = Nat.succ (Nat.succ FUEL6) from rfl,
        dispatch_init_inline_ok FUEL6 env initCtx none sa rfl hok hri hdns hco]
      simp [initCtx, List.countP_cons, List.countP_nil, isHandledEv]

/-- A concrete environment whose host lookup completes inline, for the C7
witness. -/
def envC7w : Env := { envC1w with resolveInline := true }

/-- Witness for C7: the inline-completing lookup is processed exactly
once. -/
theorem claim_C7_witness :
    (dispatch FUEL envC7w initCtx .httpOsDns none).2.2 = .returned ∧
    ((dispatch FUEL envC7w initCtx .httpOsDns none).2.1).countP
      (isHandledEv .hostLookup) = 1 ∧
    ((dispatch FUEL envC7w initCtx .httpOsDns none).2.1).countP
      (isHandledEv .httpOsDns) = 1 :=
  claim_C7 envC7w (Or.inl (by decide)) (by decide)

/-- The environment for the C9 evaluation: default configured port 8080,
IPv4 resolution result. -/
def envC9v4 : Env := envC1w

/-- The environment for the C9 evaluation with an IPv6 resolution
result. -/
def envC9v6 : Env :=
  { envC1w with dnsResult := some { isV6 := true, addrText := "2001:db8::1", port := 0 } }

/-- The driver script for the C9 evaluation: deliver the resolution
result so `StateAuthProxyConnect` runs. -/
def stepsC9 : List Drive := [.lookupDone]

/-- C9 (code bug): `StateAuthProxyConnect` stores the configured port by
plain assignment `addr.sin.sin_port = options->hostport;` (identically
`sin6_port` for IPv6), with no host-to-network byte-order conversion.
For the default port 8080 the 16-bit field handed to `TSHttpConnect`
holds the raw value 8080 for both IPv4 and IPv6, whereas the network
byte-order encoding that a little-endian host must store is
`hton16 8080 = 36895`.  The claim that the port is "correctly encoded in
the 16-bit network-byte-order port field" therefore fails on
little-endian hosts (the secondary connection goes to wire port 36895);
the later upstream fix wraps the assignment in `htons`. -/
theorem claim_C9 :
    connectedPortValues (runTrace envC9v4 stepsC9) = [8080] ∧
    connectedPortValues (runTrace envC9v6 stepsC9) = [8080] ∧
    hton16 8080 = 36895 ∧
    (8080 : Nat) ≠ hton16 8080 := by
  refine ⟨by decide, by decide, by decide, by decide⟩


/-- C2: For every secondary response whose parsed status is in 200-299,
completing the headers moves the machine directly to the Authorized
terminal state (and its destruction point) and re-enables the original
transaction with `TS_EVENT_HTTP_CONTINUE`, regardless of the response
body bytes still buffered, chunked framing, or declared content length
(all unconstrained here, as are `read_body`/`is_head`); the body-reading
state is never entered.  When force-cacheability is set, the transaction
is configured to ignore authentication for caching before being
re-enabled (shown by the filtered sub-trace order). -/
theorem claim_C2 (n : Nat) (env : Env) (c : AuthCtx) (ev : TSEvent)
    (ed : Option SockaddrModel)
    (hev : ev = .vconnReadReady ∨ ev = .vconnReadComplete)
    (hs : c.state = some .readHeader)
    (hne : ¬ c.iobuf.length = 0)
    (hmf : env.malformed = false)
    (hcmp : env.headerLen ≤ c.hdrConsumed + c.iobuf.length)
    (h2 : 200 ≤ env.rstatus ∧ env.rstatus < 300) :
    (dispatch (Nat.succ (Nat.succ (Nat.succ n))) env c ev ed).2.2 = .returned ∧
    (dispatch (Nat.succ (Nat.succ (Nat.succ n))) env c ev ed).1.destroyed = true ∧
    (dispatch (Nat.succ (Nat.succ (Nat.succ n))) env c ev ed).1.state = none ∧
    ((dispatch (Nat.succ (Nat.succ (Nat.succ n))) env c ev ed).2.1).countP
      isAuthorizedOutcome = 1 ∧
    ((dispatch (Nat.succ (Nat.succ (Nat.succ n))) env c ev ed).2.1).countP
      isDeniedOutcome = 0 ∧
    ((dispatch (Nat.succ (Nat.succ (Nat.succ n))) env c ev ed).2.1).countP
      (isHandledEv .httpContinue) = 0 ∧
    (dispatch (Nat.succ (Nat.succ (Nat.succ n))) env c ev ed).1.txn.reenables =
      c.txn.reenables ++ [.httpContinue] ∧
    (dispatch (Nat.succ (Nat.succ (Nat.succ n))) env c ev ed).1.txn.ignoreAuth =
      (if env.force then true else c.txn.ignoreAuth) ∧
    ((dispatch (Nat.succ (Nat.succ (Nat.succ n))) env c ev ed).2.1).filter
      (fun e => e = .configIgnoreAuth ∨ e = .reenable .httpContinue) =
      (if env.force then [.configIgnoreAuth, .reenable .httpContinue]
       else [.reenable .httpContinue]) := by
  rcases hev with rfl | rfl <;>
    rw [dispatch_readHeaders_complete_2xx n env c _ ed hs (by decide) hne hmf hcmp h2] <;>
    cases hf : env.force <;> cases hv : c.vconn <;>
      simp [hf, hv, List.countP_cons, List.countP_nil, List.filter,
        isAuthorizedOutcome, isDeniedOutcome, isHandledEv]

/-- The C2 witness environment: status 204, chunked framing declared and
a positive content length, force-cacheability on. -/
def envC2w : Env :=
  { envC1w with
      force := true
      rstatus := 204
      rfields := [("Transfer-Encoding", "chunked"), ("Content-Length", "10")] }

/-- The C2/C4 witness context: mid-attempt, reading response headers,
with two header bytes buffered and `read_body` cleared as the
HEAD-to-origin transform leaves it. -/
def ctxC2w : AuthCtx :=
  { state := some .readHeader
    vconn := true
    pending := .read
    iobuf := ['h', 'h']
    hdrConsumed := 0
    read_body := false }

/-- Witness for C2 at a concrete 204 chunked response. -/
theorem claim_C2_witness :
    (dispatch (Nat.succ (Nat.succ (Nat.succ 0))) envC2w ctxC2w .vconnReadReady none).2.2 =
      .returned ∧
    (dispatch (Nat.succ (Nat.succ (Nat.succ 0))) envC2w ctxC2w .vconnReadReady
      none).1.destroyed = true ∧
    (dispatch (Nat.succ (Nat.succ (Nat.succ 0))) envC2w ctxC2w .vconnReadReady
      none).1.state = none ∧
    ((dispatch (Nat.succ (Nat.succ (Nat.succ 0))) envC2w ctxC2w .vconnReadReady
      none).2.1).countP isAuthorizedOutcome = 1 ∧
    ((dispatch (Nat.succ (Nat.succ (Nat.succ 0))) envC2w ctxC2w .vconnReadReady
      none).2.1).countP isDeniedOutcome = 0 ∧
    ((dispatch (Nat.succ (Nat.succ (Nat.succ 0))) envC2w ctxC2w .vconnReadReady
      none).2.1).countP (isHandledEv .httpContinue) = 0 ∧
    (dispatch (Nat.succ (Nat.succ (Nat.succ 0))) envC2w ctxC2w .vconnReadReady
      none).1.txn.reenables = ctxC2w.txn.reenables ++ [.httpContinue] ∧
    (dispatch (Nat.succ (Nat.succ (Nat.succ 0))) envC2w ctxC2w .vconnReadReady
      none).1.txn.ignoreAuth =
      (if envC2w.force then true else ctxC2w.txn.ignoreAuth) ∧
    ((dispatch (Nat.succ (Nat.succ (Nat.succ 0))) envC2w ctxC2w .vconnReadReady
      none).2.1).filter
      (fun e => e = .configIgnoreAuth ∨ e = .reenable .httpContinue) =
      (if envC2w.force then [.configIgnoreAuth, .reenable .httpContinue]
       else [.reenable .httpContinue]) :=
  claim_C2 0 envC2w ctxC2w .vconnReadReady none (Or.inl rfl) rfl (by decide)
    (by decide) (by decide) (by decide)

/-- C4: After headers complete with a non-2xx status, if the attempt's
consume-a-body flag is cleared (as the HEAD-to-origin transform leaves
it), or the response declares `Transfer-Encoding: chunked`, or the
declared content length is zero, the machine chains the denial response
immediately from the headers collected so far: it moves to the
send-response phase (closing the secondary connection), never invokes the
body-reading handler (`StateAuthProxyReadContent` is never entered, so no
chunk is ever decoded), and never issues another read — so a
HEAD-to-origin attempt never waits for or consumes a response body even
when the headers declare a positive content length. -/
theorem claim_C4 (n : Nat) (env : Env) (c : AuthCtx) (ev : TSEvent)
    (ed : Option SockaddrModel)
    (hev : ev = .vconnReadReady ∨ ev = .vconnReadComplete)
    (hs : c.state = some .readHeader)
    (hne : ¬ c.iobuf.length = 0)
    (hmf : env.malformed = false)
    (hcmp : env.headerLen ≤ c.hdrConsumed + c.iobuf.length)
    (h2 : ¬ (200 ≤ env.rstatus ∧ env.rstatus < 300))
    (hno : c.read_body = false ∨ HttpIsChunkedEncoding env.rfields = true ∨
      HttpGetContentLength env.rfields = 0) :
    (dispatch (Nat.succ (Nat.succ (Nat.succ n))) env c ev ed).2.2 = .returned ∧
    (dispatch (Nat.succ (Nat.succ (Nat.succ n))) env c ev ed).1.state =
      some .sendResponse ∧
    (dispatch (Nat.succ (Nat.succ (Nat.succ n))) env c ev ed).1.pending = .sendHook ∧
    (dispatch (Nat.succ (Nat.succ (Nat.succ n))) env c ev ed).1.vconn = false ∧
    ((dispatch (Nat.succ (Nat.succ (Nat.succ n))) env c ev ed).2.1).countP
      isDeniedOutcome = 1 ∧
    ((dispatch (Nat.succ (Nat.succ (Nat.succ n))) env c ev ed).2.1).countP
      isAuthorizedOutcome = 0 ∧
    ((dispatch (Nat.succ (Nat.succ (Nat.succ n))) env c ev ed).2.1).countP
      (isHandledEv .httpContinue) = 0 ∧
    ((dispatch (Nat.succ (Nat.succ (Nat.succ n))) env c ev ed).2.1).countP
      isReadIssued = 0 := by
  rcases hev with rfl | rfl <;>
    rw [dispatch_readHeaders_complete_deny n env c _ ed hs (by decide) hne hmf hcmp
      h2 hno] <;>
    cases hv : c.vconn <;>
      simp [hv, List.countP_cons, List.countP_nil,
        isAuthorizedOutcome, isDeniedOutcome, isHandledEv, isReadIssued]

/-- The C4 witness environment: a 403 response declaring a positive
content length (21 bytes). -/
def envC4w : Env :=
  { envC1w with rstatus := 403, rfields := [("Content-Length", "21")] }

/-- Witness for C4: a HEAD-to-origin attempt (`read_body = false`) denies
from headers only despite `Content-Length: 21`. -/
theorem claim_C4_witness :
    (dispatch (Nat.succ (Nat.succ (Nat.succ 0))) envC4w ctxC2w .vconnReadReady
      none).2.2 = .returned ∧
    (dispatch (Nat.succ (Nat.succ (Nat.succ 0))) envC4w ctxC2w .vconnReadReady
      none).1.state = some .sendResponse ∧
    (dispatch (Nat.succ (Nat.succ (Nat.succ 0))) envC4w ctxC2w .vconnReadReady
      none).1.pending = .sendHook ∧
    (dispatch (Nat.succ (Nat.succ (Nat.succ 0))) envC4w ctxC2w .vconnReadReady
      none).1.vconn = false ∧
    ((dispatch (Nat.succ (Nat.succ (Nat.succ 0))) envC4w ctxC2w .vconnReadReady
      none).2.1).countP isDeniedOutcome = 1 ∧
    ((dispatch (Nat.succ (Nat.succ (Nat.succ 0))) envC4w ctxC2w .vconnReadReady
      none).2.1).countP isAuthorizedOutcome = 0 ∧
    ((dispatch (Nat.succ (Nat.succ (Nat.succ 0))) envC4w ctxC2w .vconnReadReady
      none).2.1).countP (isHandledEv .httpContinue) = 0 ∧
    ((dispatch (Nat.succ (Nat.succ (Nat.succ 0))) envC4w ctxC2w .vconnReadReady
      none).2.1).countP isReadIssued = 0 :=
  claim_C4 0 envC4w ctxC2w .vconnReadReady none (Or.inl rfl) rfl (by decide)
    (by decide) (by decide) (by decide) (Or.inl (by decide))


/-- C6 (amended): During the ReadingBody loop, if end-of-stream arrives
while the buffered byte count is still below the declared content
length, the outcome is Denied via the error path (`TS_EVENT_ERROR`
pumped into `StateUnauthorized`), not Authorized; the client receives
the forced 403 Forbidden response with the fixed body
`"authorization denied\n"` — not a response built from the buffered
bytes (see the counterexample theorem for the original claim's failing
part). -/
theorem claim_C6 (n : Nat) (env : Env) (c : AuthCtx) (ed : Option SockaddrModel)
    (hs : c.state = some .readContent)
    (hlt : ¬ HttpGetContentLength env.rfields ≤ c.iobuf.length) :
    (dispatch (Nat.succ (Nat.succ n)) env c .vconnEos ed).2.2 = .returned ∧
    (dispatch (Nat.succ (Nat.succ n)) env c .vconnEos ed).1.destroyed = true ∧
    (dispatch (Nat.succ (Nat.succ n)) env c .vconnEos ed).1.txn.retStatus =
      some 403 ∧
    (dispatch (Nat.succ (Nat.succ n)) env c .vconnEos ed).1.txn.errorBody =
      some "authorization denied\n" ∧
    ((dispatch (Nat.succ (Nat.succ n)) env c .vconnEos ed).2.1).countP
      isDeniedOutcome = 1 ∧
    ((dispatch (Nat.succ (Nat.succ n)) env c .vconnEos ed).2.1).countP
      isAuthorizedOutcome = 0 := by
  rw [dispatch_completeContent_fail n env c ed hs hlt]
  cases hv : c.vconn <;>
    simp [hv, List.countP_cons, List.countP_nil, isAuthorizedOutcome, isDeniedOutcome]

/-- The C6 witness environment: `Content-Length: 10` declared. -/
def envC6w : Env :=
  { envC1w with rstatus := 500, rfields := [("Content-Length", "10")] }

/-- The C6 witness context: body phase with only 6 of the 10 declared
bytes buffered. -/
def ctxC6w : AuthCtx :=
  { state := some .readContent
    vconn := true
    pending := .read
    iobuf := ['a', 'b', 'c', 'd', 'e', 'f']
    headersDone := true }

/-- Witness for C6: `Content-Length: 10` with 6 bytes buffered at EOS. -/
theorem claim_C6_witness :
    (dispatch (Nat.succ (Nat.succ 0)) envC6w ctxC6w .vconnEos none).2.2 = .returned ∧
    (dispatch (Nat.succ (Nat.succ 0)) envC6w ctxC6w .vconnEos none).1.destroyed = true ∧
    (dispatch (Nat.succ (Nat.succ 0)) envC6w ctxC6w .vconnEos none).1.txn.retStatus =
      some 403 ∧
    (dispatch (Nat.succ (Nat.succ 0)) envC6w ctxC6w .vconnEos none).1.txn.errorBody =
      some "authorization denied\n" ∧
    ((dispatch (Nat.succ (Nat.succ 0)) envC6w ctxC6w .vconnEos none).2.1).countP
      isDeniedOutcome = 1 ∧
    ((dispatch (Nat.succ (Nat.succ 0)) envC6w ctxC6w .vconnEos none).2.1).countP
      isAuthorizedOutcome = 0 :=
  claim_C6 0 envC6w ctxC6w none rfl (by decide)

/-- The C6 counterexample environment: a 500 response with
`Content-Length: 10`, a 2-byte header section. -/
def envC6r : Env :=
  { envC1w with rstatus := 500, rfields := [("Content-Length", "10")] }

/-- The C6 counterexample run, first buffered body: `abcdef`. -/
def stepsC6a : List Drive :=
  [.lookupDone, .writeDone, .readChunk ['h', 'h'] false,
   .readChunk ['a', 'b', 'c', 'd', 'e', 'f'] false, .readEos]

/-- The C6 counterexample run, second buffered body: `uvwxyz`. -/
def stepsC6b : List Drive :=
  [.lookupDone, .writeDone, .readChunk ['h', 'h'] false,
   .readChunk ['u', 'v', 'w', 'x', 'y', 'z'] false, .readEos]

/-- C6 counterexample: the original claim also asserts that "the
response sent to the client is still built from whatever was buffered".
It is not: two premature-EOS runs whose buffered bytes differ
(`abcdef` vs `uvwxyz`, against `Content-Length: 10`) leave identical
client transaction state — the fixed 403 `"authorization denied\n"`
response — and the secondary response's status/headers are never copied
(`respStatus`/`respFields` stay `none`); the buffered bytes sit unused
in the attempt's buffer. -/
theorem claim_C6_counterexample :
    (runCtx envC6r stepsC6a).txn = (runCtx envC6r stepsC6b).txn ∧
    (runCtx envC6r stepsC6a).txn.retStatus = some 403 ∧
    (runCtx envC6r stepsC6a).txn.errorBody = some "authorization denied\n" ∧
    (runCtx envC6r stepsC6a).txn.respStatus = none ∧
    (runCtx envC6r stepsC6a).txn.respFields = none ∧
    (runCtx envC6r stepsC6a).iobuf = ['a', 'b', 'c', 'd', 'e', 'f'] ∧
    (runTrace envC6r stepsC6a).countP isDeniedOutcome = 1 ∧
    (runTrace envC6r stepsC6a).countP isAuthorizedOutcome = 0 := by
  decide

/-- The C3 environment: the secondary response is
`403`, `Content-Length: 21`, with the 21-byte body
`authorization denied\n` delivered in full. -/
def envC3r : Env :=
  { envC1w with rstatus := 403, rfields := [("Content-Length", "21")] }

/-- The C3 driver script: resolve, write, read the 2-byte header
section, read the full 21-byte body, then fire the send-response hook. -/
def stepsC3r : List Drive :=
  [.lookupDone, .writeDone, .readChunk ['h', 'h'] false,
   .readChunk ("authorization denied\n".toList) false, .fireSendHook]

/-- C3 (code bug): on the denied-with-body path the code copies the
secondary response's status and headers to the client response
(`respStatus = 403`, the `Content-Length: 21` field set), but — contrary
to its own comment "then read any available body data and copy that as
well" and to the claim — the body delivered to the client is the
synthesized `"<status> <reason>\n"` line (`"403 Forbidden\n"`), not the
accumulated 21-byte body, which remains unconsumed in the attempt's
read buffer; and for the non-HEAD original request the response
content-length is forced to 0, which matches neither body. -/
theorem claim_C3 :
    (runAuth envC3r stepsC3r).isSome = true ∧
    (runCtx envC3r stepsC3r).destroyed = true ∧
    (runCtx envC3r stepsC3r).txn.respStatus = some 403 ∧
    (runCtx envC3r stepsC3r).txn.respFields = some [("Content-Length", "21")] ∧
    (runCtx envC3r stepsC3r).txn.errorBody = some "403 Forbidden\n" ∧
    ¬ (runCtx envC3r stepsC3r).txn.errorBody = some "authorization denied\n" ∧
    (runCtx envC3r stepsC3r).txn.respCLZeroForced = true ∧
    (runCtx envC3r stepsC3r).iobuf = "authorization denied\n".toList := by
  decide


/-- C5: If host resolution fails (the lookup completes with a null
result) or connection establishment fails (`TSHttpConnect` returns no
handle), the attempt terminates in Denied with a client-visible 403
Forbidden response — the dispatch returns normally (`isSome`, so never a
release-assert abort) and the delivered event is fully processed to
destruction (never left pending) — for any configuration that issues the
lookup asynchronously.  The model runs one attempt in isolation, so the
failure is local to it. -/
theorem claim_C5 (env : Env)
    (hok : env.transformIsHead = false ∨ env.originHostOk = true)
    (hri : env.resolveInline = false) :
    (env.dnsResult = none →
      (runAuth env [.lookupDone]).isSome = true ∧
      (runCtx env [.lookupDone]).destroyed = true ∧
      (runCtx env [.lookupDone]).txn.retStatus = some 403 ∧
      (runCtx env [.lookupDone]).txn.errorBody = some "authorization denied\n" ∧
      (runTrace env [.lookupDone]).countP isDeniedOutcome = 1 ∧
      (runTrace env [.lookupDone]).countP isAuthorizedOutcome = 0) ∧
    (∀ sa : SockaddrModel, env.dnsResult = some sa → env.connectOk = false →
      (runAuth env [.lookupDone]).isSome = true ∧
      (runCtx env [.lookupDone]).destroyed = true ∧
      (runCtx env [.lookupDone]).txn.retStatus = some 403 ∧
      (runCtx env [.lookupDone]).txn.errorBody = some "authorization denied\n" ∧
      (runTrace env [.lookupDone]).countP isDeniedOutcome = 1 ∧
      (runTrace env [.lookupDone]).countP isAuthorizedOutcome = 0) := by
  constructor
  · intro hdns
    rcases hok with hok | hok <;>
      simp [runAuth, runCtx, runTrace, runSteps, driveStep, allowedStep, initCtx,
        FUEL, FUEL7, FUEL6, FUEL5, FUEL4, FUEL3, dispatch, tableRows, stateTableInit,
        stateTableProxyRequest, List.find?, runHandlerPure, hdlConnect,
        hdlUnauthorized, destructorEffects, hri, hok, hdns,
        isDeniedOutcome, isAuthorizedOutcome, List.countP_cons, List.countP_nil]
  · intro sa hdns hco
    rcases hok with hok | hok <;>
      simp [runAuth, runCtx, runTrace, runSteps, driveStep, allowedStep, initCtx,
        FUEL, FUEL7, FUEL6, FUEL5, FUEL4, FUEL3, dispatch, tableRows, stateTableInit,
        stateTableProxyRequest, List.find?, runHandlerPure, hdlConnect,
        hdlUnauthorized, destructorEffects, hri, hok, hdns, hco,
        isDeniedOutcome, isAuthorizedOutcome, List.countP_cons, List.countP_nil]

/-- The C5 witness environment: resolution fails (null lookup result). -/
def envC5w : Env := { envC1w with dnsResult := none }

/-- Witness for C5, instantiated at the failed-resolution environment. -/
theorem claim_C5_witness :
    (runAuth envC5w [.lookupDone]).isSome = true ∧
    (runCtx envC5w [.lookupDone]).destroyed = true ∧
    (runCtx envC5w [.lookupDone]).txn.retStatus = some 403 ∧
    (runCtx envC5w [.lookupDone]).txn.errorBody = some "authorization denied\n" ∧
    (runTrace envC5w [.lookupDone]).countP isDeniedOutcome = 1 ∧
    (runTrace envC5w [.lookupDone]).countP isAuthorizedOutcome = 0 :=
  (claim_C5 envC5w (Or.inl (by decide)) (by decide)).1 (by decide)

end AuthProxy
